import Mathlib

/-!
Verification development for the convec particle simulation.

The embedding models the per-tick particle physics integrator of
src/FluidParticles.tsx (the FluidSystem useFrame callback, lines 93-324),
the ensemble initializer (lines 39-73), the persistent smoothed simulation
state (lines 27-36), and the derived-quantity calculator of src/App.tsx
(lines 26-85).

Two semantics are provided:

1. The main embedding works over the real numbers.  Every JavaScript
   number that occurs on the modelled paths is a finite double, and the
   model treats arithmetic exactly; the NaN/Infinity safety branch of
   lines 257-269 can never fire under this semantics, so it is modelled
   separately (see below).  Calls to Math.random() are modelled as oracle
   inputs (a Draws record per particle per tick); theorems constrain them
   to the interval where Math.random() takes values.

2. A second embedding (the JSVal section) extends the value space with
   the special floating point values NaN, +Infinity and -Infinity and
   defines the JavaScript arithmetic, comparison, min/max, sqrt and
   atan2/cos/sin semantics on them (rounding is not modelled; finite
   arithmetic stays exact).  It is used for the claims that are about
   non-finite values: the per-particle instability recovery of lines
   257-269 and the division by zero in the average-temperature
   computation of lines 127-132 when the particle count is zero.
-/

noncomputable section
namespace Convec

/-- THREE.MathUtils.lerp: x + ( y - x ) * t. -/
def lerp (x y t : ℝ) : ℝ := x + (y - x) * t

/-- The configuration record (src/types.ts SimulationParams).  All fields
are plain numbers; densityEffect is optional in the source and is read
through `params.densityEffect || 1.0`. -/
structure SimParams where
  containerRadius : ℝ
  containerHeight : ℝ
  surfaceAreaHot : ℝ
  containerOpacity : ℝ
  tempSurface : ℝ
  tempFluidInitial : ℝ
  boilingPoint : ℝ
  density : ℝ
  expansionCoefficient : ℝ
  viscosityDynamic : ℝ
  thermalConductivityFluid : ℝ
  thermalDiffusivity : ℝ
  heatCapacity : ℝ
  gravity : ℝ
  pressure : ℝ
  particleCount : ℕ
  particleSize : ℝ
  densityEffect : Option ℝ

/-- The persistent smoothed simulation state (src/FluidParticles.tsx
lines 27-36, the simState ref). -/
structure SimState where
  tempSurface : ℝ
  tempFluidInitial : ℝ
  gravity : ℝ
  viscosity : ℝ
  expansion : ℝ
  diffusivity : ℝ
  density : ℝ
  avgSystemTemp : ℝ

/-- Initial value of the simState ref (lines 27-36): every smoothed field
starts at its configuration target, and the running average starts at the
initial fluid temperature. -/
def initSimState (P : SimParams) : SimState :=
  { tempSurface := P.tempSurface
    tempFluidInitial := P.tempFluidInitial
    gravity := P.gravity
    viscosity := P.viscosityDynamic
    expansion := P.expansionCoefficient
    diffusivity := P.thermalDiffusivity
    density := P.density
    avgSystemTemp := P.tempFluidInitial }

/-- One particle of the ensemble: a slice of the columnar arrays
positions / velocities / temperatures / state (0 = liquid, 1 = gas,
modelled as a Bool). -/
structure Particle where
  x : ℝ
  y : ℝ
  z : ℝ
  vx : ℝ
  vy : ℝ
  vz : ℝ
  temp : ℝ
  gas : Bool

/-- The Math.random() outcomes consumed by one particle in one tick on
the finite path: the three Brownian jitter draws of lines 208-210.  Each
is a uniform draw from [0, 1). -/
structure Draws where
  jx : ℝ
  jy : ℝ
  jz : ℝ

/-- An rgb colour triple (THREE.Color). -/
structure Color where
  r : ℝ
  g : ℝ
  b : ℝ

/-- THREE.Color.lerpColors: componentwise a + (b - a) * t. -/
def colorLerp (a b : Color) (t : ℝ) : Color :=
  ⟨lerp a.r b.r t, lerp a.g b.g t, lerp a.b b.b t⟩

/-- Colour constants of lines 14-21. -/
def cBlue : Color := ⟨0.1, 0.3, 1.0⟩

def cCyan : Color := ⟨0.2, 0.8, 0.9⟩

def cGreen : Color := ⟨0.2, 0.9, 0.3⟩

def cYellow : Color := ⟨0.9, 0.9, 0.2⟩

def cRed : Color := ⟨1.0, 0.2, 0.1⟩

def cGlow : Color := ⟨1.0, 1.0, 1.0⟩

def cGas : Color := ⟨0.95, 0.95, 1.0⟩

/-- Per-tick shared scalars (section 2 of useFrame, lines 109-138),
computed once and read by every particle. -/
structure TickConsts where
  dt : ℝ
  halfH : ℝ
  radius : ℝ
  height : ℝ
  inertiaFactor : ℝ
  dragFactor : ℝ
  thermalRate : ℝ
  avgT : ℝ
  sTempSurface : ℝ
  sTempFluidInitial : ℝ
  gravity : ℝ
  expansion : ℝ
  boilingPoint : ℝ
  canConvect : Bool

/-- Parameter smoothing, lines 99-107: each of the seven smoothed fields
moves toward its configuration target by lerp with the fixed rate 0.05;
the running average temperature is not touched here. -/
def smoothParams (P : SimParams) (s : SimState) : SimState :=
  { tempSurface := lerp s.tempSurface P.tempSurface 0.05
    tempFluidInitial := lerp s.tempFluidInitial P.tempFluidInitial 0.05
    gravity := lerp s.gravity P.gravity 0.05
    viscosity := lerp s.viscosity P.viscosityDynamic 0.05
    expansion := lerp s.expansion P.expansionCoefficient 0.05
    diffusivity := lerp s.diffusivity P.thermalDiffusivity 0.05
    density := lerp s.density P.density 0.05
    avgSystemTemp := s.avgSystemTemp }

/-- Line 135: const canConvect = computed.rayleigh > 1000. -/
def canConvect (rayleigh : ℝ) : Bool :=
  if rayleigh > 1000 then true else false

/-- Line 114: params.densityEffect || 1.0 (JavaScript: undefined and 0
are falsy and give 1.0). -/
def densityFactor (P : SimParams) : ℝ :=
  match P.densityEffect with
  | none => 1
  | some v => if v = 0 then 1 else v

/-- Lines 128-131: arithmetic mean of the temperature array.  The loop
bound and the divisor are both params.particleCount; the ensemble list is
assumed to have that length (it does for every ensemble the initializer
produces). -/
def frameAvg (P : SimParams) (ps : List (Particle × Draws)) : ℝ :=
  (ps.map fun q => q.1.temp).sum / (P.particleCount : ℝ)

/-- The simState record at the end of a tick: the seven smoothed
parameters (lines 101-107) and the running average temperature updated
with lerp rate 0.1 from the frame average (line 132). -/
def newSimState (P : SimParams) (s : SimState) (ps : List (Particle × Draws)) :
    SimState :=
  let s1 := smoothParams P s
  { s1 with avgSystemTemp := lerp s1.avgSystemTemp (frameAvg P ps) 0.1 }

/-- The shared per-tick scalars of lines 96 and 109-138: capped time
step, container geometry, inertia proxy, drag factor, thermal rate, the
updated running average temperature (line 133 reads it after the line 132
update) and the convection gate. -/
def mkTickConsts (P : SimParams) (rayleigh δ : ℝ) (s : SimState)
    (ps : List (Particle × Draws)) : TickConsts :=
  let dt := min δ 0.05
  let s1 := smoothParams P s
  let safeDensity := max 1 s1.density
  let inertiaFactor := max 0.01 (safeDensity * 0.001 * densityFactor P)
  let dragCoeff := s1.viscosity * 100 / inertiaFactor
  { dt := dt
    halfH := P.containerHeight / 2
    radius := P.containerRadius
    height := P.containerHeight
    inertiaFactor := inertiaFactor
    dragFactor := max 0 (min 0.999 (1 - dragCoeff * dt))
    thermalRate := s1.diffusivity * 80000
    avgT := lerp s1.avgSystemTemp (frameAvg P ps) 0.1
    sTempSurface := s1.tempSurface
    sTempFluidInitial := s1.tempFluidInitial
    gravity := s1.gravity
    expansion := s1.expansion
    boilingPoint := P.boilingPoint
    canConvect := canConvect rayleigh }

/-- Thermal update of one particle, lines 147-167: conduction from the
hot bottom surface inside a 0.02 boundary layer, cooling near the wall or
the top, and bulk mixing toward the running average when convection is
enabled.  All three are exponential lerps whose rates scale with dt. -/
def thermalT (c : TickConsts) (p : Particle) : ℝ :=
  let r := Real.sqrt (p.x * p.x + p.z * p.z)
  let distToSurface := p.y + c.halfH
  let t1 :=
    if distToSurface < 0.02 then
      lerp p.temp c.sTempSurface
        (c.thermalRate * 20 * max 0 (1 - distToSurface / 0.02) * c.dt)
    else p.temp
  let t2 :=
    if c.radius - r < 0.015 ∨ c.halfH - p.y < 0.01 then
      lerp t1 c.sTempFluidInitial (c.thermalRate * 5 * c.dt)
    else t1
  if c.canConvect = true then lerp t2 c.avgT (c.thermalRate * 0.1 * c.dt) else t2

/-- Phase classification of lines 178-184: gas exactly when the (already
thermally updated) temperature exceeds the boiling point. -/
def phaseGas (c : TickConsts) (p : Particle) : Bool :=
  if thermalT c p > c.boilingPoint then true else false

/-- Vertical force contributed by the phase branch, lines 172-184: the
flat rapid-rise force gravity * 2.0 for gas, and the Boussinesq buoyancy
gravity * expansion * (T - avgT) * 250 for liquid. -/
def fyPhase (c : TickConsts) (p : Particle) : ℝ :=
  if thermalT c p > c.boilingPoint then c.gravity * 2.0
  else c.gravity * c.expansion * (thermalT c p - c.avgT) * 250

/-- Radial x component of the toroidal circulation heuristic, lines
186-204, gated on the convection flag and r > 0.001. -/
def circX (c : TickConsts) (p : Particle) : ℝ :=
  let r := Real.sqrt (p.x * p.x + p.z * p.z)
  let tempDiff := thermalT c p - c.avgT
  let rNorm := r / c.radius
  let yNorm := (p.y + c.halfH) / c.height
  if c.canConvect = true ∧ r > 0.001 then
    (if tempDiff > 0 ∧ yNorm > 0.8 then p.x / r * (2.0 * rNorm) else 0)
      + (if tempDiff < 0 ∧ yNorm < 0.2 then -(p.x / r * 2.0) else 0)
  else 0

/-- Radial z component of the toroidal circulation heuristic. -/
def circZ (c : TickConsts) (p : Particle) : ℝ :=
  let r := Real.sqrt (p.x * p.x + p.z * p.z)
  let tempDiff := thermalT c p - c.avgT
  let rNorm := r / c.radius
  let yNorm := (p.y + c.halfH) / c.height
  if c.canConvect = true ∧ r > 0.001 then
    (if tempDiff > 0 ∧ yNorm > 0.8 then p.z / r * (2.0 * rNorm) else 0)
      + (if tempDiff < 0 ∧ yNorm < 0.2 then -(p.z / r * 2.0) else 0)
  else 0

/-- Line 222-225: per-axis velocity clamp to [-MAX_VELOCITY, MAX_VELOCITY]
with MAX_VELOCITY = 10.0. -/
def clampV (v : ℝ) : ℝ := max (-10) (min 10 v)

/-- Lines 298-301: the four-stop heat-map gradient over the clamped
normalized temperature. -/
def heatColor (t : ℝ) : Color :=
  if t < 0.25 then colorLerp cBlue cCyan (t * 4)
  else if t < 0.5 then colorLerp cCyan cGreen ((t - 0.25) * 4)
  else if t < 0.75 then colorLerp cGreen cYellow ((t - 0.5) * 4)
  else colorLerp cYellow cRed ((t - 0.75) * 4)

/-- Colour derivation of lines 275-318, evaluated on the committed
particle state (final position, velocity, temperature and phase). -/
def colorOf (c : TickConsts) (p : Particle) (showHeat : Bool) : Color :=
  let tNorm :=
    max 0 (min 1 ((p.temp - c.sTempFluidInitial)
      / max 1 (c.sTempSurface - c.sTempFluidInitial)))
  let isConducting :=
    p.y + c.halfH < 0.015 ∧ p.temp > c.sTempFluidInitial + 5
  if p.gas = true then cGas
  else if showHeat = true then
    if isConducting then cGlow else heatColor tNorm
  else
    let speed := Real.sqrt (p.vx ^ 2 + p.vy ^ 2 + p.vz ^ 2)
    let bright := min 1 (speed * 2)
    let base : Color := ⟨0.1 + bright * 0.2, 0.4 + bright * 0.2, 0.8 + bright * 0.2⟩
    if isConducting then colorLerp base cGlow 0.5 else base

/-- The per-particle body of the main loop, lines 141-318, under the
real-valued semantics: thermal update, force accumulation (phase branch,
toroidal circulation, Brownian jitter), Euler integration with drag and
velocity clamping, position update, boundary resolution (floor with
bounce heating, ceiling, cylindrical wall with angular reprojection), and
colour derivation.  In the wall branch the source computes the angle with
Math.atan2(z, x) and reprojects with radius * cos(angle) and
radius * sin(angle); for a nonzero finite (x, z) these equal
radius * x / newR and radius * z / newR, which is the form used here (the
branch only runs when newR > radius).  The non-finite safety branch of
lines 257-269 can never fire over the reals and is modelled in the JSVal
semantics below. -/
def particleStep (c : TickConsts) (p : Particle) (d : Draws) (showHeat : Bool) :
    Particle × Color :=
  let t3 := thermalT c p
  let jitter := t3 / 500 * 0.05
  let fx := circX c p + (d.jx - 0.5) * jitter
  let fy := fyPhase c p + (d.jy - 0.5) * jitter
  let fz := circZ c p + (d.jz - 0.5) * jitter
  let vx1 := clampV ((p.vx + fx * c.dt / c.inertiaFactor) * c.dragFactor)
  let vy1 := clampV ((p.vy + fy * c.dt / c.inertiaFactor) * c.dragFactor)
  let vz1 := clampV ((p.vz + fz * c.dt / c.inertiaFactor) * c.dragFactor)
  let x1 := p.x + vx1 * c.dt
  let y1 := p.y + vy1 * c.dt
  let z1 := p.z + vz1 * c.dt
  let floorHit := y1 < -c.halfH
  let y2 := if floorHit then -c.halfH + 0.001 else y1
  let vy2 := if floorHit then vy1 * (-0.4) else vy1
  let t4 := if floorHit then lerp t3 c.sTempSurface 0.2 else t3
  let ceilHit := y2 > c.halfH
  let y3 := if ceilHit then c.halfH - 0.001 else y2
  let vy3 := if ceilHit then vy2 * (-0.4) else vy2
  let newR := Real.sqrt (x1 * x1 + z1 * z1)
  let wallHit := newR > c.radius
  let x2 := if wallHit then c.radius * (x1 / newR) else x1
  let z2 := if wallHit then c.radius * (z1 / newR) else z1
  let vx2 := if wallHit then vx1 * (-0.5) else vx1
  let vz2 := if wallHit then vz1 * (-0.5) else vz1
  let pOut : Particle := ⟨x2, y3, z2, vx2, vy3, vz2, t4, phaseGas c p⟩
  (pOut, colorOf c pOut showHeat)

/-- One full tick of the integrator (useFrame body, lines 93-324) under
the real-valued semantics: parameter smoothing, shared scalar derivation
including the running average temperature, then the independent
per-particle update.  Inputs: the configuration, the externally computed
Rayleigh number, the heat-map display flag, the elapsed time delta, the
persistent smoothed state, and the ensemble with the random draws each
particle will consume. -/
def tick (P : SimParams) (rayleigh : ℝ) (showHeat : Bool) (δ : ℝ)
    (s : SimState) (ps : List (Particle × Draws)) :
    SimState × List (Particle × Color) :=
  (newSimState P s ps,
   ps.map fun q => particleStep (mkTickConsts P rayleigh δ s ps) q.1 q.2 showHeat)

/-- The Math.random() outcomes consumed when one particle is initialized
(lines 48-62): the radial draw (taken under the square root), the angular
draw, the vertical draw and the variance draw; each uniform in [0, 1). -/
structure InitDraws where
  u : ℝ
  utheta : ℝ
  uy : ℝ
  uv : ℝ

/-- The ensemble initializer for one particle, lines 48-62: cylindrical
placement with square-root-scaled radius floored at 0.001, uniform angle,
uniform height, zero velocity (Float32Array zero initialization), initial
fluid temperature, liquid phase (Uint8Array zero initialization), and the
per-particle variance 0.8 + 0.4 * U.  Returns the particle and its
variance entry. -/
def initParticle (P : SimParams) (d : InitDraws) : Particle × ℝ :=
  let r := max 0.001 (Real.sqrt d.u * P.containerRadius * 0.9)
  let theta := d.utheta * 2 * Real.pi
  (⟨r * Real.cos theta, (d.uy - 0.5) * P.containerHeight, r * Real.sin theta,
    0, 0, 0, P.tempFluidInitial, false⟩,
   0.8 + d.uv * 0.4)

/-! ### The derived-quantity calculator of src/App.tsx (lines 26-85) -/

/-- src/App.tsx line 28: kinematic viscosity. -/
def kinViscosity (P : SimParams) : ℝ := P.viscosityDynamic / P.density

/-- src/App.tsx lines 32-39: the Rayleigh number with characteristic
length containerHeight and deltaT floored at 0. -/
def rayleighOf (P : SimParams) : ℝ :=
  P.gravity * P.expansionCoefficient * max 0 (P.tempSurface - P.tempFluidInitial)
    * P.containerHeight ^ 3 / (kinViscosity P * P.thermalDiffusivity)

/-- src/App.tsx line 48: estimated mean internal temperature. -/
def estimatedInternalTemp (P : SimParams) : ℝ :=
  P.tempFluidInitial + max 0 (P.tempSurface - P.tempFluidInitial) * 0.4

/-- The flow regime labels of src/types.ts ComputedValues. -/
inductive FlowRegime where
  | conductive : FlowRegime
  | laminar : FlowRegime
  | turbulent : FlowRegime
  | boiling : FlowRegime
deriving DecidableEq

/-- src/App.tsx lines 42-67: regime classification.  Boiling when the
estimated internal temperature reaches the boiling point or the surface
exceeds it; otherwise convective only above the Rayleigh threshold 1708,
with the turbulent label above 1e9; conductive below. -/
def flowRegimeOf (P : SimParams) : FlowRegime :=
  if estimatedInternalTemp P ≥ P.boilingPoint ∨ P.tempSurface > P.boilingPoint then
    FlowRegime.boiling
  else if rayleighOf P > 1708 then
    (if rayleighOf P > 1000000000 then FlowRegime.turbulent else FlowRegime.laminar)
  else FlowRegime.conductive

/-! ### Floating point special values

The JSVal type extends the reals with NaN, +Infinity and -Infinity and
defines the JavaScript number semantics needed by the modelled code
paths.  Finite arithmetic is exact (rounding is not modelled); signed
zero is not modelled, so where IEEE semantics depend on the sign of a
zero the convention of the positive zero is used (the modelled code paths
never depend on it). -/

inductive JSVal where
  | nan : JSVal
  | pinf : JSVal
  | ninf : JSVal
  | fin : ℝ → JSVal
deriving DecidableEq

/-- isFinite. -/
def jsIsFinite : JSVal → Bool
  | JSVal.fin _ => true
  | _ => false

/-- IEEE negation. -/
def jsNeg : JSVal → JSVal
  | JSVal.nan => JSVal.nan
  | JSVal.pinf => JSVal.ninf
  | JSVal.ninf => JSVal.pinf
  | JSVal.fin a => JSVal.fin (-a)

/-- IEEE addition: NaN propagates; opposite infinities give NaN. -/
def jsAdd : JSVal → JSVal → JSVal
  | JSVal.nan, _ => JSVal.nan
  | _, JSVal.nan => JSVal.nan
  | JSVal.pinf, JSVal.ninf => JSVal.nan
  | JSVal.ninf, JSVal.pinf => JSVal.nan
  | JSVal.pinf, _ => JSVal.pinf
  | _, JSVal.pinf => JSVal.pinf
  | JSVal.ninf, _ => JSVal.ninf
  | _, JSVal.ninf => JSVal.ninf
  | JSVal.fin a, JSVal.fin b => JSVal.fin (a + b)

/-- IEEE subtraction. -/
def jsSub (a b : JSVal) : JSVal := jsAdd a (jsNeg b)

/-- IEEE multiplication: NaN propagates; an infinity times zero is NaN,
times a nonzero finite value it keeps or flips sign. -/
def jsMul : JSVal → JSVal → JSVal
  | JSVal.nan, _ => JSVal.nan
  | _, JSVal.nan => JSVal.nan
  | JSVal.pinf, JSVal.pinf => JSVal.pinf
  | JSVal.pinf, JSVal.ninf => JSVal.ninf
  | JSVal.ninf, JSVal.pinf => JSVal.ninf
  | JSVal.ninf, JSVal.ninf => JSVal.pinf
  | JSVal.pinf, JSVal.fin b =>
      if b = 0 then JSVal.nan else if b > 0 then JSVal.pinf else JSVal.ninf
  | JSVal.fin a, JSVal.pinf =>
      if a = 0 then JSVal.nan else if a > 0 then JSVal.pinf else JSVal.ninf
  | JSVal.ninf, JSVal.fin b =>
      if b = 0 then JSVal.nan else if b > 0 then JSVal.ninf else JSVal.pinf
  | JSVal.fin a, JSVal.ninf =>
      if a = 0 then JSVal.nan else if a > 0 then JSVal.ninf else JSVal.pinf
  | JSVal.fin a, JSVal.fin b => JSVal.fin (a * b)

/-- IEEE division: NaN propagates; Inf/Inf and 0/0 are NaN; a finite
value over an infinity is zero; a nonzero finite value over zero is a
signed infinity (the divisor zero is treated as +0). -/
def jsDiv : JSVal → JSVal → JSVal
  | JSVal.nan, _ => JSVal.nan
  | _, JSVal.nan => JSVal.nan
  | JSVal.pinf, JSVal.pinf => JSVal.nan
  | JSVal.pinf, JSVal.ninf => JSVal.nan
  | JSVal.ninf, JSVal.pinf => JSVal.nan
  | JSVal.ninf, JSVal.ninf => JSVal.nan
  | JSVal.pinf, JSVal.fin b => if b < 0 then JSVal.ninf else JSVal.pinf
  | JSVal.ninf, JSVal.fin b => if b < 0 then JSVal.pinf else JSVal.ninf
  | JSVal.fin _, JSVal.pinf => JSVal.fin 0
  | JSVal.fin _, JSVal.ninf => JSVal.fin 0
  | JSVal.fin a, JSVal.fin b =>
      if b = 0 then
        (if a = 0 then JSVal.nan else if a > 0 then JSVal.pinf else JSVal.ninf)
      else JSVal.fin (a / b)

/-- The JavaScript < comparison: false whenever either side is NaN. -/
def jsLtB : JSVal → JSVal → Bool
  | JSVal.nan, _ => false
  | _, JSVal.nan => false
  | JSVal.ninf, JSVal.ninf => false
  | JSVal.ninf, _ => true
  | _, JSVal.ninf => false
  | JSVal.pinf, _ => false
  | JSVal.fin _, JSVal.pinf => true
  | JSVal.fin a, JSVal.fin b => if a < b then true else false

/-- The JavaScript > comparison. -/
def jsGtB (a b : JSVal) : Bool := jsLtB b a

/-- Math.max: NaN if either argument is NaN. -/
def jsMax : JSVal → JSVal → JSVal
  | JSVal.nan, _ => JSVal.nan
  | _, JSVal.nan => JSVal.nan
  | JSVal.pinf, _ => JSVal.pinf
  | _, JSVal.pinf => JSVal.pinf
  | JSVal.ninf, b => b
  | a, JSVal.ninf => a
  | JSVal.fin a, JSVal.fin b => JSVal.fin (max a b)

/-- Math.min: NaN if either argument is NaN. -/
def jsMin : JSVal → JSVal → JSVal
  | JSVal.nan, _ => JSVal.nan
  | _, JSVal.nan => JSVal.nan
  | JSVal.ninf, _ => JSVal.ninf
  | _, JSVal.ninf => JSVal.ninf
  | JSVal.pinf, b => b
  | a, JSVal.pinf => a
  | JSVal.fin a, JSVal.fin b => JSVal.fin (min a b)

/-- Math.sqrt: NaN for NaN and for negative arguments (including -Inf),
+Inf for +Inf. -/
def jsSqrt : JSVal → JSVal
  | JSVal.nan => JSVal.nan
  | JSVal.pinf => JSVal.pinf
  | JSVal.ninf => JSVal.nan
  | JSVal.fin a => if a < 0 then JSVal.nan else JSVal.fin (Real.sqrt a)

/-- Math.cos: NaN on NaN and infinities. -/
def jsCos : JSVal → JSVal
  | JSVal.fin a => JSVal.fin (Real.cos a)
  | _ => JSVal.nan

/-- Math.sin: NaN on NaN and infinities. -/
def jsSin : JSVal → JSVal
  | JSVal.fin a => JSVal.fin (Real.sin a)
  | _ => JSVal.nan

/-- Math.atan2(y, x).  On finite arguments this is the argument of the
complex number x + i y (both range over (-pi, pi] and agree away from the
signed zeros, which are not modelled); the infinite cases follow the
specified special-value table. -/
def jsAtan2 : JSVal → JSVal → JSVal
  | JSVal.nan, _ => JSVal.nan
  | _, JSVal.nan => JSVal.nan
  | JSVal.pinf, JSVal.pinf => JSVal.fin (Real.pi / 4)
  | JSVal.pinf, JSVal.ninf => JSVal.fin (3 * Real.pi / 4)
  | JSVal.ninf, JSVal.pinf => JSVal.fin (-(Real.pi / 4))
  | JSVal.ninf, JSVal.ninf => JSVal.fin (-(3 * Real.pi / 4))
  | JSVal.pinf, JSVal.fin _ => JSVal.fin (Real.pi / 2)
  | JSVal.ninf, JSVal.fin _ => JSVal.fin (-(Real.pi / 2))
  | JSVal.fin _, JSVal.pinf => JSVal.fin 0
  | JSVal.fin a, JSVal.ninf => JSVal.fin (if a < 0 then -Real.pi else Real.pi)
  | JSVal.fin a, JSVal.fin b => JSVal.fin (Complex.arg ⟨b, a⟩)

/-- THREE.MathUtils.lerp under the floating point semantics. -/
def jsLerp (x y t : JSVal) : JSVal := jsAdd x (jsMul (jsSub y x) t)

/-- A particle under the floating point semantics. -/
structure ParticleF where
  x : JSVal
  y : JSVal
  z : JSVal
  vx : JSVal
  vy : JSVal
  vz : JSVal
  temp : JSVal
  gas : Bool

/-- The Math.random() outcomes one particle may consume in one tick under
the floating point semantics: the three jitter draws of lines 208-210 and
the three recovery draws of lines 260-263 (radial, angular, vertical).
Math.random() always returns a finite double in [0, 1), so these are plain
reals. -/
structure DrawsF where
  jx : ℝ
  jy : ℝ
  jz : ℝ
  rR : ℝ
  rTheta : ℝ
  rY : ℝ

/-- The persistent smoothed state under the floating point semantics. -/
structure SimStateF where
  tempSurface : JSVal
  tempFluidInitial : JSVal
  gravity : JSVal
  viscosity : JSVal
  expansion : JSVal
  diffusivity : JSVal
  density : JSVal
  avgSystemTemp : JSVal

/-- The per-tick shared scalars under the floating point semantics. -/
structure TickConstsF where
  dt : JSVal
  halfH : JSVal
  radius : JSVal
  height : JSVal
  inertiaFactor : JSVal
  dragFactor : JSVal
  thermalRate : JSVal
  avgT : JSVal
  sTempSurface : JSVal
  sTempFluidInitial : JSVal
  gravity : JSVal
  expansion : JSVal
  boilingPoint : JSVal
  canConvect : Bool

/-- Parameter smoothing (lines 99-107) under the floating point
semantics; the configuration targets are finite numbers. -/
def smoothParamsF (P : SimParams) (s : SimStateF) : SimStateF :=
  { tempSurface := jsLerp s.tempSurface (JSVal.fin P.tempSurface) (JSVal.fin 0.05)
    tempFluidInitial :=
      jsLerp s.tempFluidInitial (JSVal.fin P.tempFluidInitial) (JSVal.fin 0.05)
    gravity := jsLerp s.gravity (JSVal.fin P.gravity) (JSVal.fin 0.05)
    viscosity := jsLerp s.viscosity (JSVal.fin P.viscosityDynamic) (JSVal.fin 0.05)
    expansion :=
      jsLerp s.expansion (JSVal.fin P.expansionCoefficient) (JSVal.fin 0.05)
    diffusivity :=
      jsLerp s.diffusivity (JSVal.fin P.thermalDiffusivity) (JSVal.fin 0.05)
    density := jsLerp s.density (JSVal.fin P.density) (JSVal.fin 0.05)
    avgSystemTemp := s.avgSystemTemp }

/-- Lines 128-131 under the floating point semantics: the loop sums the
first particleCount temperatures (the ensemble list has that length) and
divides by particleCount — for an empty ensemble this is the division
0 / 0. -/
def frameAvgF (P : SimParams) (ps : List (ParticleF × DrawsF)) : JSVal :=
  jsDiv ((ps.map fun q => q.1.temp).foldl jsAdd (JSVal.fin 0))
    (JSVal.fin (P.particleCount : ℝ))

/-- End-of-tick simState under the floating point semantics. -/
def newSimStateF (P : SimParams) (s : SimStateF) (ps : List (ParticleF × DrawsF)) :
    SimStateF :=
  let s1 := smoothParamsF P s
  { s1 with
      avgSystemTemp :=
        jsLerp s1.avgSystemTemp (frameAvgF P ps) (JSVal.fin 0.1) }

/-- The shared per-tick scalars (lines 96, 109-138) under the floating
point semantics. -/
def mkTickConstsF (P : SimParams) (rayleigh δ : ℝ) (s : SimStateF)
    (ps : List (ParticleF × DrawsF)) : TickConstsF :=
  let dt := JSVal.fin (min δ 0.05)
  let s1 := smoothParamsF P s
  let safeDensity := jsMax (JSVal.fin 1) s1.density
  let inertiaFactor :=
    jsMax (JSVal.fin 0.01)
      (jsMul (jsMul safeDensity (JSVal.fin 0.001)) (JSVal.fin (densityFactor P)))
  let dragCoeff := jsDiv (jsMul s1.viscosity (JSVal.fin 100)) inertiaFactor
  { dt := dt
    halfH := JSVal.fin (P.containerHeight / 2)
    radius := JSVal.fin P.containerRadius
    height := JSVal.fin P.containerHeight
    inertiaFactor := inertiaFactor
    dragFactor :=
      jsMax (JSVal.fin 0)
        (jsMin (JSVal.fin 0.999) (jsSub (JSVal.fin 1) (jsMul dragCoeff dt)))
    thermalRate := jsMul s1.diffusivity (JSVal.fin 80000)
    avgT := jsLerp s1.avgSystemTemp (frameAvgF P ps) (JSVal.fin 0.1)
    sTempSurface := s1.tempSurface
    sTempFluidInitial := s1.tempFluidInitial
    gravity := s1.gravity
    expansion := s1.expansion
    boilingPoint := JSVal.fin P.boilingPoint
    canConvect := canConvect rayleigh }

/-- Thermal update (lines 147-167) under the floating point semantics. -/
def thermalTF (c : TickConstsF) (p : ParticleF) : JSVal :=
  let r := jsSqrt (jsAdd (jsMul p.x p.x) (jsMul p.z p.z))
  let distToSurface := jsAdd p.y c.halfH
  let t1 :=
    if jsLtB distToSurface (JSVal.fin 0.02) = true then
      jsLerp p.temp c.sTempSurface
        (jsMul
          (jsMul (jsMul c.thermalRate (JSVal.fin 20))
            (jsMax (JSVal.fin 0)
              (jsSub (JSVal.fin 1) (jsDiv distToSurface (JSVal.fin 0.02)))))
          c.dt)
    else p.temp
  let t2 :=
    if jsLtB (jsSub c.radius r) (JSVal.fin 0.015) = true
        ∨ jsLtB (jsSub c.halfH p.y) (JSVal.fin 0.01) = true then
      jsLerp t1 c.sTempFluidInitial
        (jsMul (jsMul c.thermalRate (JSVal.fin 5)) c.dt)
    else t1
  if c.canConvect = true then
    jsLerp t2 c.avgT (jsMul (jsMul c.thermalRate (JSVal.fin 0.1)) c.dt)
  else t2

/-- Phase branch vertical force (lines 172-184) under the floating point
semantics. -/
def fyPhaseF (c : TickConstsF) (p : ParticleF) : JSVal :=
  if jsGtB (thermalTF c p) c.boilingPoint = true then
    jsMul c.gravity (JSVal.fin 2.0)
  else
    jsMul (jsMul (jsMul c.gravity c.expansion) (jsSub (thermalTF c p) c.avgT))
      (JSVal.fin 250)

/-- Circulation x force (lines 186-204) under the floating point
semantics. -/
def circXF (c : TickConstsF) (p : ParticleF) : JSVal :=
  let r := jsSqrt (jsAdd (jsMul p.x p.x) (jsMul p.z p.z))
  let tempDiff := jsSub (thermalTF c p) c.avgT
  let rNorm := jsDiv r c.radius
  let yNorm := jsDiv (jsAdd p.y c.halfH) c.height
  if c.canConvect = true ∧ jsGtB r (JSVal.fin 0.001) = true then
    jsAdd
      (if jsGtB tempDiff (JSVal.fin 0) = true ∧ jsGtB yNorm (JSVal.fin 0.8) = true
       then jsMul (jsDiv p.x r) (jsMul (JSVal.fin 2.0) rNorm) else JSVal.fin 0)
      (if jsLtB tempDiff (JSVal.fin 0) = true ∧ jsLtB yNorm (JSVal.fin 0.2) = true
       then jsNeg (jsMul (jsDiv p.x r) (JSVal.fin 2.0)) else JSVal.fin 0)
  else JSVal.fin 0

/-- Circulation z force under the floating point semantics. -/
def circZF (c : TickConstsF) (p : ParticleF) : JSVal :=
  let r := jsSqrt (jsAdd (jsMul p.x p.x) (jsMul p.z p.z))
  let tempDiff := jsSub (thermalTF c p) c.avgT
  let rNorm := jsDiv r c.radius
  let yNorm := jsDiv (jsAdd p.y c.halfH) c.height
  if c.canConvect = true ∧ jsGtB r (JSVal.fin 0.001) = true then
    jsAdd
      (if jsGtB tempDiff (JSVal.fin 0) = true ∧ jsGtB yNorm (JSVal.fin 0.8) = true
       then jsMul (jsDiv p.z r) (jsMul (JSVal.fin 2.0) rNorm) else JSVal.fin 0)
      (if jsLtB tempDiff (JSVal.fin 0) = true ∧ jsLtB yNorm (JSVal.fin 0.2) = true
       then jsNeg (jsMul (jsDiv p.z r) (JSVal.fin 2.0)) else JSVal.fin 0)
  else JSVal.fin 0

/-- Velocity clamp (lines 222-225) under the floating point semantics. -/
def clampVF (v : JSVal) : JSVal := jsMax (JSVal.fin (-10)) (jsMin (JSVal.fin 10) v)

/-- Everything the per-particle body does before the safety check: lines
141-255 (thermal update, forces, integration with drag and clamping,
position update, floor/ceiling/wall resolution) under the floating point
semantics.  The wall branch reprojects with Math.cos and Math.sin of
Math.atan2(z, x) exactly as the source does. -/
def kinematicsF (c : TickConstsF) (p : ParticleF) (d : DrawsF) : ParticleF :=
  let t3 := thermalTF c p
  let jitter := jsMul (jsDiv t3 (JSVal.fin 500)) (JSVal.fin 0.05)
  let fx := jsAdd (circXF c p) (jsMul (JSVal.fin (d.jx - 0.5)) jitter)
  let fy := jsAdd (fyPhaseF c p) (jsMul (JSVal.fin (d.jy - 0.5)) jitter)
  let fz := jsAdd (circZF c p) (jsMul (JSVal.fin (d.jz - 0.5)) jitter)
  let vx1 := clampVF (jsMul (jsAdd p.vx (jsDiv (jsMul fx c.dt) c.inertiaFactor)) c.dragFactor)
  let vy1 := clampVF (jsMul (jsAdd p.vy (jsDiv (jsMul fy c.dt) c.inertiaFactor)) c.dragFactor)
  let vz1 := clampVF (jsMul (jsAdd p.vz (jsDiv (jsMul fz c.dt) c.inertiaFactor)) c.dragFactor)
  let x1 := jsAdd p.x (jsMul vx1 c.dt)
  let y1 := jsAdd p.y (jsMul vy1 c.dt)
  let z1 := jsAdd p.z (jsMul vz1 c.dt)
  let floorHit := jsLtB y1 (jsNeg c.halfH) = true
  let y2 := if floorHit then jsAdd (jsNeg c.halfH) (JSVal.fin 0.001) else y1
  let vy2 := if floorHit then jsMul vy1 (JSVal.fin (-0.4)) else vy1
  let t4 := if floorHit then jsLerp t3 c.sTempSurface (JSVal.fin 0.2) else t3
  let ceilHit := jsGtB y2 c.halfH = true
  let y3 := if ceilHit then jsSub c.halfH (JSVal.fin 0.001) else y2
  let vy3 := if ceilHit then jsMul vy2 (JSVal.fin (-0.4)) else vy2
  let newR := jsSqrt (jsAdd (jsMul x1 x1) (jsMul z1 z1))
  let wallHit := jsGtB newR c.radius = true
  let angle := jsAtan2 z1 x1
  let x2 := if wallHit then jsMul c.radius (jsCos angle) else x1
  let z2 := if wallHit then jsMul c.radius (jsSin angle) else z1
  let vx2 := if wallHit then jsMul vx1 (JSVal.fin (-0.5)) else vx1
  let vz2 := if wallHit then jsMul vz1 (JSVal.fin (-0.5)) else vz1
  ⟨x2, y3, z2, vx2, vy3, vz2, t4, jsGtB t3 c.boilingPoint⟩

/-- The safety check of lines 257-269: if any position coordinate is
non-finite after boundary resolution, the particle is repositioned to a
fresh random point within 0.8 * radius of the axis via fresh draws, its
velocity is zeroed and its temperature is reset to the smoothed ambient
temperature; otherwise it passes through untouched. -/
def safetyF (c : TickConstsF) (p : ParticleF) (d : DrawsF) : ParticleF :=
  if jsIsFinite p.x = true ∧ jsIsFinite p.y = true ∧ jsIsFinite p.z = true then p
  else
    let safeR := jsMul (jsMul (JSVal.fin d.rR) c.radius) (JSVal.fin 0.8)
    let safeTheta := JSVal.fin (d.rTheta * 2 * Real.pi)
    { x := jsMul safeR (jsCos safeTheta)
      y := jsMul (JSVal.fin (d.rY - 0.5)) c.halfH
      z := jsMul safeR (jsSin safeTheta)
      vx := JSVal.fin 0
      vy := JSVal.fin 0
      vz := JSVal.fin 0
      temp := c.sTempFluidInitial
      gas := p.gas }

/-- The per-particle body of the main loop (lines 141-273, kinematic and
thermal state only) under the floating point semantics. -/
def particleStepF (c : TickConstsF) (p : ParticleF) (d : DrawsF) : ParticleF :=
  safetyF c (kinematicsF c p d) d

/-- One full tick under the floating point semantics (colour derivation
omitted; the colour claims are settled in the real semantics). -/
def tickF (P : SimParams) (rayleigh δ : ℝ) (s : SimStateF)
    (ps : List (ParticleF × DrawsF)) : SimStateF × List ParticleF :=
  (newSimStateF P s ps,
   ps.map fun q => particleStepF (mkTickConstsF P rayleigh δ s ps) q.1 q.2)

/-! ### Helper lemmas -/

theorem lerp_same (a t : ℝ) : lerp a a t = a := by
  simp [lerp]

theorem lerp_rate_zero (x y : ℝ) : lerp x y 0 = x := by
  simp [lerp]

theorem lerp_mem_unit {x y t : ℝ} (hx0 : 0 ≤ x) (hx1 : x ≤ 1) (hy0 : 0 ≤ y)
    (hy1 : y ≤ 1) (ht0 : 0 ≤ t) (ht1 : t ≤ 1) : 0 ≤ lerp x y t ∧ lerp x y t ≤ 1 := by
  unfold lerp
  constructor <;> nlinarith

/-- A colour triple with every component in [0, 1]. -/
def inUnit (c : Color) : Prop :=
  0 ≤ c.r ∧ c.r ≤ 1 ∧ 0 ≤ c.g ∧ c.g ≤ 1 ∧ 0 ≤ c.b ∧ c.b ≤ 1

theorem colorLerp_inUnit {a b : Color} {t : ℝ} (ha : inUnit a) (hb : inUnit b)
    (ht0 : 0 ≤ t) (ht1 : t ≤ 1) : inUnit (colorLerp a b t) := by
  obtain ⟨har0, har1, hag0, hag1, hab0, hab1⟩ := ha
  obtain ⟨hbr0, hbr1, hbg0, hbg1, hbb0, hbb1⟩ := hb
  refine ⟨?_, ?_, ?_, ?_, ?_, ?_⟩
  · exact (lerp_mem_unit har0 har1 hbr0 hbr1 ht0 ht1).1
  · exact (lerp_mem_unit har0 har1 hbr0 hbr1 ht0 ht1).2
  · exact (lerp_mem_unit hag0 hag1 hbg0 hbg1 ht0 ht1).1
  · exact (lerp_mem_unit hag0 hag1 hbg0 hbg1 ht0 ht1).2
  · exact (lerp_mem_unit hab0 hab1 hbb0 hbb1 ht0 ht1).1
  · exact (lerp_mem_unit hab0 hab1 hbb0 hbb1 ht0 ht1).2

theorem heatColor_inUnit {t : ℝ} (h0 : 0 ≤ t) (h1 : t ≤ 1) : inUnit (heatColor t) := by
  unfold heatColor
  split_ifs with hb1 hb2 hb3
  · exact colorLerp_inUnit (by norm_num [inUnit, cBlue]) (by norm_num [inUnit, cCyan])
      (by linarith) (by linarith)
  · exact colorLerp_inUnit (by norm_num [inUnit, cCyan]) (by norm_num [inUnit, cGreen])
      (by push_neg at hb1; linarith) (by linarith)
  · exact colorLerp_inUnit (by norm_num [inUnit, cGreen]) (by norm_num [inUnit, cYellow])
      (by push_neg at hb2; linarith) (by linarith)
  · exact colorLerp_inUnit (by norm_num [inUnit, cYellow]) (by norm_num [inUnit, cRed])
      (by push_neg at hb3; linarith) (by linarith)

theorem colorOf_inUnit (c : TickConsts) (p : Particle) (sh : Bool) :
    inUnit (colorOf c p sh) := by
  have htN : 0 ≤ max 0 (min 1 ((p.temp - c.sTempFluidInitial)
      / max 1 (c.sTempSurface - c.sTempFluidInitial)))
      ∧ max 0 (min 1 ((p.temp - c.sTempFluidInitial)
      / max 1 (c.sTempSurface - c.sTempFluidInitial))) ≤ 1 := by
    constructor
    · exact le_max_left 0 _
    · exact max_le (by norm_num) (min_le_left 1 _)
  have hb0 : (0:ℝ) ≤ min 1 (Real.sqrt (p.vx ^ 2 + p.vy ^ 2 + p.vz ^ 2) * 2) :=
    le_min (by norm_num) (by positivity)
  have hb1 : min 1 (Real.sqrt (p.vx ^ 2 + p.vy ^ 2 + p.vz ^ 2) * 2) ≤ 1 :=
    min_le_left 1 _
  have hbase : inUnit ⟨0.1 + min 1 (Real.sqrt (p.vx ^ 2 + p.vy ^ 2 + p.vz ^ 2) * 2) * 0.2,
      0.4 + min 1 (Real.sqrt (p.vx ^ 2 + p.vy ^ 2 + p.vz ^ 2) * 2) * 0.2,
      0.8 + min 1 (Real.sqrt (p.vx ^ 2 + p.vy ^ 2 + p.vz ^ 2) * 2) * 0.2⟩ := by
    refine ⟨by nlinarith, by nlinarith, by nlinarith, by nlinarith, by nlinarith, by nlinarith⟩
  unfold colorOf
  cases hg : p.gas with
  | true =>
      rw [if_pos rfl]
      exact ⟨by norm_num [cGas], by norm_num [cGas], by norm_num [cGas],
        by norm_num [cGas], by norm_num [cGas], by norm_num [cGas]⟩
  | false =>
      rw [if_neg (by simp)]
      cases hsh : sh with
      | true =>
          rw [if_pos rfl]
          by_cases hc : p.y + c.halfH < 0.015 ∧ p.temp > c.sTempFluidInitial + 5
          · rw [if_pos hc]
            exact ⟨by norm_num [cGlow], by norm_num [cGlow], by norm_num [cGlow],
              by norm_num [cGlow], by norm_num [cGlow], by norm_num [cGlow]⟩
          · rw [if_neg hc]
            exact heatColor_inUnit htN.1 htN.2
      | false =>
          rw [if_neg (by simp)]
          by_cases hc : p.y + c.halfH < 0.015 ∧ p.temp > c.sTempFluidInitial + 5
          · rw [if_pos hc]
            exact colorLerp_inUnit hbase
              ⟨by norm_num [cGlow], by norm_num [cGlow], by norm_num [cGlow],
                by norm_num [cGlow], by norm_num [cGlow], by norm_num [cGlow]⟩
              (by norm_num) (by norm_num)
          · rw [if_neg hc]
            exact hbase

/-- C8: After every tick, every component of every particle colour lies
in [0, 1]: the tick emits exactly the colour that colorOf derives from
the committed particle state, and colorOf lands in the unit cube in all
three display branches (gas override, heat-map gradient with conduction
glow, and the speed-based watery look) for any temperature, speed and
smoothed parameter values. -/
theorem C8_tick_colors_in_unit_cube :
    ∀ (c : TickConsts) (p : Particle) (d : Draws) (sh : Bool),
      (particleStep c p d sh).2 = colorOf c (particleStep c p d sh).1 sh
        ∧ inUnit ((particleStep c p d sh).2) := by
  intro c p d sh
  exact ⟨rfl, colorOf_inUnit c _ sh⟩

/-! ### C6: phase classification and the phase force -/

theorem thermalT_gas_irrelevant (c : TickConsts) (p : Particle) (b : Bool) :
    thermalT c { p with gas := b } = thermalT c p := rfl

/-- C6: In every tick a particle is classified gas exactly when its
(thermally updated) temperature exceeds the boiling point, in which case
the phase branch contributes the flat vertical force gravity * 2.0 and
the buoyancy term is not applied; otherwise it is classified liquid and
the branch contributes the buoyancy force
gravity * expansion * (T - avgSystemTemp) * 250.  The classification the
tick commits is recomputed from temperature alone: it does not depend on
the phase the particle carried into the tick, so a particle whose
temperature falls back below the boiling point is reclassified liquid on
the next tick. -/
theorem C6_phase_recomputed_each_tick :
    ∀ (c : TickConsts) (p : Particle) (d : Draws) (sh : Bool) (b : Bool),
      (thermalT c p > c.boilingPoint →
        phaseGas c p = true ∧ fyPhase c p = c.gravity * 2.0) ∧
      (¬ thermalT c p > c.boilingPoint →
        phaseGas c p = false ∧
        fyPhase c p = c.gravity * c.expansion * (thermalT c p - c.avgT) * 250) ∧
      (particleStep c { p with gas := b } d sh).1.gas = phaseGas c p := by
  intro c p d sh b
  refine ⟨fun h => ⟨?_, ?_⟩, fun h => ⟨?_, ?_⟩, rfl⟩
  · simp [phaseGas, if_pos h]
  · simp [fyPhase, if_pos h]
  · simp [phaseGas, if_neg h]
  · simp [fyPhase, if_neg h]

/-- Consts used to witness C6: zero thermal rate, so the thermal stage
leaves the temperature unchanged. -/
def c6consts : TickConsts :=
  { dt := 0.016, halfH := 0.1, radius := 0.1, height := 0.2, inertiaFactor := 0.998
    dragFactor := 0.998, thermalRate := 0, avgT := 293, sTempSurface := 350
    sTempFluidInitial := 293, gravity := 9.81, expansion := 0.000207
    boilingPoint := 373.15, canConvect := false }

theorem thermalT_c6consts (p : Particle) : thermalT c6consts p = p.temp := by
  unfold thermalT c6consts
  split_ifs <;> simp [lerp]

theorem C6_witness :
    thermalT c6consts ⟨0, 0, 0, 0, 0, 0, 400, false⟩ > c6consts.boilingPoint ∧
      phaseGas c6consts ⟨0, 0, 0, 0, 0, 0, 400, false⟩ = true ∧
      fyPhase c6consts ⟨0, 0, 0, 0, 0, 0, 400, false⟩ = c6consts.gravity * 2.0 := by
  have h : thermalT c6consts ⟨0, 0, 0, 0, 0, 0, 400, false⟩ > c6consts.boilingPoint := by
    rw [thermalT_c6consts]
    norm_num [c6consts]
  exact ⟨h,
    ((C6_phase_recomputed_each_tick c6consts ⟨0, 0, 0, 0, 0, 0, 400, false⟩
      ⟨0, 0, 0⟩ false false).1 h).1,
    ((C6_phase_recomputed_each_tick c6consts ⟨0, 0, 0, 0, 0, 0, 400, false⟩
      ⟨0, 0, 0⟩ false false).1 h).2⟩

/-! ### C5: parameter smoothing -/

/-- The n-fold application of one smoothing step s := lerp s target 0.05
(the map each of the seven smoothed fields undergoes per tick). -/
def smoothIter (target s0 : ℝ) (n : ℕ) : ℝ :=
  (fun v => lerp v target 0.05)^[n] s0

theorem smoothIter_zero (target s0 : ℝ) : smoothIter target s0 0 = s0 := rfl

theorem smoothIter_succ (target s0 : ℝ) (n : ℕ) :
    smoothIter target s0 (n + 1) = lerp (smoothIter target s0 n) target 0.05 := by
  unfold smoothIter
  rw [Function.iterate_succ_apply']

theorem smoothIter_formula (target s0 : ℝ) (n : ℕ) :
    smoothIter target s0 n = target - 0.95 ^ n * (target - s0) := by
  induction n with
  | zero => simp [smoothIter]
  | succ n ih =>
      rw [smoothIter_succ, ih, lerp]
      ring

/-- The map the persistent state undergoes in one tick with a fixed
configuration and ensemble. -/
def tickStateMap (P : SimParams) (ra δ : ℝ) (sh : Bool)
    (ps : List (Particle × Draws)) : SimState → SimState :=
  fun st => (tick P ra sh δ st ps).1

/-- C5: Each tick updates each of the seven smoothed parameters by
s := s + 0.05 * (target - s); the new persistent state is independent of
the elapsed time (and of the display flag), so the rate 0.05 is not
delta-time scaled; and iterating the tick with a constant target moves
every smoothed scalar monotonically toward its target, never
overshooting, and converges to it. -/
theorem C5_smoothing_lerp_monotone :
    ∀ (P : SimParams) (ra ra2 δ δ2 : ℝ) (sh sh2 : Bool) (s : SimState)
      (ps : List (Particle × Draws)),
      ((tick P ra sh δ s ps).1.tempSurface
          = s.tempSurface + 0.05 * (P.tempSurface - s.tempSurface)
        ∧ (tick P ra sh δ s ps).1.tempFluidInitial
          = s.tempFluidInitial + 0.05 * (P.tempFluidInitial - s.tempFluidInitial)
        ∧ (tick P ra sh δ s ps).1.gravity
          = s.gravity + 0.05 * (P.gravity - s.gravity)
        ∧ (tick P ra sh δ s ps).1.viscosity
          = s.viscosity + 0.05 * (P.viscosityDynamic - s.viscosity)
        ∧ (tick P ra sh δ s ps).1.expansion
          = s.expansion + 0.05 * (P.expansionCoefficient - s.expansion)
        ∧ (tick P ra sh δ s ps).1.diffusivity
          = s.diffusivity + 0.05 * (P.thermalDiffusivity - s.diffusivity)
        ∧ (tick P ra sh δ s ps).1.density
          = s.density + 0.05 * (P.density - s.density)) ∧
      (tick P ra sh δ s ps).1 = (tick P ra2 sh2 δ2 s ps).1 ∧
      (∀ (t s0 : ℝ) (n : ℕ),
        (s0 ≤ t → smoothIter t s0 n ≤ smoothIter t s0 (n + 1)
            ∧ smoothIter t s0 n ≤ t)
        ∧ (t ≤ s0 → smoothIter t s0 (n + 1) ≤ smoothIter t s0 n
            ∧ t ≤ smoothIter t s0 n)) ∧
      (∀ (t s0 : ℝ),
        Filter.Tendsto (smoothIter t s0) Filter.atTop (nhds t)) ∧
      (tickStateMap P ra δ sh ps s = (tick P ra sh δ s ps).1) ∧
      (∀ n : ℕ,
        ((tickStateMap P ra δ sh ps)^[n] s).tempSurface
            = smoothIter P.tempSurface s.tempSurface n
          ∧ ((tickStateMap P ra δ sh ps)^[n] s).tempFluidInitial
            = smoothIter P.tempFluidInitial s.tempFluidInitial n
          ∧ ((tickStateMap P ra δ sh ps)^[n] s).gravity
            = smoothIter P.gravity s.gravity n
          ∧ ((tickStateMap P ra δ sh ps)^[n] s).viscosity
            = smoothIter P.viscosityDynamic s.viscosity n
          ∧ ((tickStateMap P ra δ sh ps)^[n] s).expansion
            = smoothIter P.expansionCoefficient s.expansion n
          ∧ ((tickStateMap P ra δ sh ps)^[n] s).diffusivity
            = smoothIter P.thermalDiffusivity s.diffusivity n
          ∧ ((tickStateMap P ra δ sh ps)^[n] s).density
            = smoothIter P.density s.density n) := by
  intro P ra ra2 δ δ2 sh sh2 s ps
  have hpow0 : ∀ n : ℕ, (0:ℝ) ≤ 0.95 ^ n := fun n => by positivity
  have hstep1 : ∀ st : SimState, (tickStateMap P ra δ sh ps st).tempSurface
      = lerp st.tempSurface P.tempSurface 0.05 := fun st => rfl
  have hstep2 : ∀ st : SimState, (tickStateMap P ra δ sh ps st).tempFluidInitial
      = lerp st.tempFluidInitial P.tempFluidInitial 0.05 := fun st => rfl
  have hstep3 : ∀ st : SimState, (tickStateMap P ra δ sh ps st).gravity
      = lerp st.gravity P.gravity 0.05 := fun st => rfl
  have hstep4 : ∀ st : SimState, (tickStateMap P ra δ sh ps st).viscosity
      = lerp st.viscosity P.viscosityDynamic 0.05 := fun st => rfl
  have hstep5 : ∀ st : SimState, (tickStateMap P ra δ sh ps st).expansion
      = lerp st.expansion P.expansionCoefficient 0.05 := fun st => rfl
  have hstep6 : ∀ st : SimState, (tickStateMap P ra δ sh ps st).diffusivity
      = lerp st.diffusivity P.thermalDiffusivity 0.05 := fun st => rfl
  have hstep7 : ∀ st : SimState, (tickStateMap P ra δ sh ps st).density
      = lerp st.density P.density 0.05 := fun st => rfl
  refine ⟨?_, rfl, ?_, ?_, rfl, ?_⟩
  · refine ⟨?_, ?_, ?_, ?_, ?_, ?_, ?_⟩ <;>
      simp [tick, newSimState, smoothParams, lerp] <;> ring
  · intro t s0 n
    have hsucc : (0.95:ℝ) ^ (n + 1) = 0.95 ^ n * 0.95 := pow_succ 0.95 n
    constructor
    · intro hle
      have hprod : 0 ≤ 0.95 ^ n * (t - s0) :=
        mul_nonneg (hpow0 n) (sub_nonneg.mpr hle)
      rw [smoothIter_formula, smoothIter_formula]
      constructor
      · nlinarith
      · nlinarith
    · intro hle
      have hprod : 0 ≤ 0.95 ^ n * (s0 - t) :=
        mul_nonneg (hpow0 n) (sub_nonneg.mpr hle)
      rw [smoothIter_formula, smoothIter_formula]
      constructor
      · nlinarith
      · nlinarith
  · intro t s0
    have hgeo : Filter.Tendsto (fun n : ℕ => (0.95:ℝ) ^ n) Filter.atTop (nhds 0) :=
      tendsto_pow_atTop_nhds_zero_of_lt_one (by norm_num) (by norm_num)
    have h2 : Filter.Tendsto (fun n : ℕ => t - 0.95 ^ n * (t - s0))
        Filter.atTop (nhds (t - 0 * (t - s0))) :=
      Filter.Tendsto.const_sub t (hgeo.mul_const (t - s0))
    have h3 : t - 0 * (t - s0) = t := by ring
    rw [h3] at h2
    have h4 : (fun n : ℕ => t - 0.95 ^ n * (t - s0)) = smoothIter t s0 := by
      funext n
      rw [smoothIter_formula]
    rwa [h4] at h2
  · intro n
    induction n with
    | zero => exact ⟨rfl, rfl, rfl, rfl, rfl, rfl, rfl⟩
    | succ n ih =>
        obtain ⟨h1, h2, h3, h4, h5, h6, h7⟩ := ih
        refine ⟨?_, ?_, ?_, ?_, ?_, ?_, ?_⟩
        · rw [Function.iterate_succ_apply', hstep1, h1, smoothIter_succ]
        · rw [Function.iterate_succ_apply', hstep2, h2, smoothIter_succ]
        · rw [Function.iterate_succ_apply', hstep3, h3, smoothIter_succ]
        · rw [Function.iterate_succ_apply', hstep4, h4, smoothIter_succ]
        · rw [Function.iterate_succ_apply', hstep5, h5, smoothIter_succ]
        · rw [Function.iterate_succ_apply', hstep6, h6, smoothIter_succ]
        · rw [Function.iterate_succ_apply', hstep7, h7, smoothIter_succ]

theorem C5_witness :
    (0:ℝ) ≤ 1 ∧ smoothIter 1 0 0 ≤ smoothIter 1 0 1 ∧ smoothIter 1 0 0 ≤ 1 := by
  have h := (C5_smoothing_lerp_monotone
    { containerRadius := 0.1, containerHeight := 0.2, surfaceAreaHot := 0
      containerOpacity := 0, tempSurface := 350, tempFluidInitial := 293
      boilingPoint := 373.15, density := 998, expansionCoefficient := 0.000207
      viscosityDynamic := 0.001002, thermalConductivityFluid := 0.6
      thermalDiffusivity := 0.000000143, heatCapacity := 4184, gravity := 9.81
      pressure := 1, particleCount := 0, particleSize := 0.015, densityEffect := none }
    0 0 0 0 true true
    ⟨350, 293, 9.81, 0.001002, 0.000207, 0.000000143, 998, 293⟩ []).2.2.1 1 0 0
  exact ⟨by norm_num, (h.1 (by norm_num)).1, (h.1 (by norm_num)).2⟩

/-! ### C9: the two convection thresholds -/

/-- C9: The integrator gates its convection effects (bulk thermal mixing
and the toroidal circulation forces) on canConvect, which is true exactly
when the externally supplied Rayleigh number exceeds the hardcoded
threshold 1000; the derived-quantity calculator instead uses 1708 for its
regime label, so any non-boiling configuration with Rayleigh in
(1000, 1708] runs the circulation branches while being reported
Conductive. -/
theorem C9_threshold_mismatch :
    ∀ (ra : ℝ) (P : SimParams) (δ : ℝ) (s : SimState) (ps : List (Particle × Draws)),
      (canConvect ra = true ↔ 1000 < ra) ∧
      (mkTickConsts P ra δ s ps).canConvect = canConvect ra ∧
      (1000 < rayleighOf P → rayleighOf P ≤ 1708 →
        estimatedInternalTemp P < P.boilingPoint → P.tempSurface ≤ P.boilingPoint →
        canConvect (rayleighOf P) = true ∧ flowRegimeOf P = FlowRegime.conductive) := by
  intro ra P δ s ps
  refine ⟨?_, rfl, ?_⟩
  · unfold canConvect
    split_ifs with h
    · simpa using h
    · simpa using h
  · intro h1000 h1708 hint hsurf
    constructor
    · unfold canConvect
      rw [if_pos h1000]
    · unfold flowRegimeOf
      rw [if_neg, if_neg]
      · exact not_lt.mpr h1708
      · push_neg
        exact ⟨hint, hsurf⟩

/-- Configuration used to witness C9: Rayleigh number 1500. -/
def c9params : SimParams :=
  { containerRadius := 1, containerHeight := 1, surfaceAreaHot := 1
    containerOpacity := 0, tempSurface := 1500, tempFluidInitial := 0
    boilingPoint := 2000, density := 1, expansionCoefficient := 1
    viscosityDynamic := 1, thermalConductivityFluid := 1
    thermalDiffusivity := 1, heatCapacity := 1, gravity := 1
    pressure := 1, particleCount := 0, particleSize := 1, densityEffect := none }

theorem C9_witness :
    1000 < rayleighOf c9params ∧ rayleighOf c9params ≤ 1708 ∧
      estimatedInternalTemp c9params < c9params.boilingPoint ∧
      c9params.tempSurface ≤ c9params.boilingPoint ∧
      canConvect (rayleighOf c9params) = true ∧
      flowRegimeOf c9params = FlowRegime.conductive := by
  have hra : rayleighOf c9params = 1500 := by
    norm_num [rayleighOf, kinViscosity, c9params]
  have h1 : 1000 < rayleighOf c9params := by rw [hra]; norm_num
  have h2 : rayleighOf c9params ≤ 1708 := by rw [hra]; norm_num
  have h3 : estimatedInternalTemp c9params < c9params.boilingPoint := by
    norm_num [estimatedInternalTemp, c9params]
  have h4 : c9params.tempSurface ≤ c9params.boilingPoint := by norm_num [c9params]
  have h := (C9_threshold_mismatch (rayleighOf c9params) c9params 0
    ⟨0, 0, 0, 0, 0, 0, 0, 0⟩ []).2.2 h1 h2 h3 h4
  exact ⟨h1, h2, h3, h4, h.1, h.2⟩

/-! ### C7: initializer bounds -/

/-- C7 (amended): provided the radius floor 0.001 does not exceed the
0.9-scaled container radius (0.001 ≤ 0.9 * containerRadius), every
particle the initializer produces from in-range draws satisfies
0.001 ≤ r ≤ 0.9 * containerRadius (never r = 0), |y| ≤ containerHeight/2,
zero velocity, the configured initial fluid temperature and a variance in
[0.8, 1.2].  Without that proviso the claim fails: the floor is
max(0.001, ...), so for 0.9 * containerRadius < 0.001 the radial distance
exceeds 0.9 * containerRadius (see the counterexample). -/
theorem C7_init_bounds :
    ∀ (P : SimParams) (d : InitDraws),
      0.001 ≤ 0.9 * P.containerRadius → 0 < P.containerHeight →
      0 ≤ d.u → d.u < 1 → 0 ≤ d.uy → d.uy < 1 → 0 ≤ d.uv → d.uv < 1 →
      Real.sqrt ((initParticle P d).1.x * (initParticle P d).1.x
          + (initParticle P d).1.z * (initParticle P d).1.z)
          ≤ 0.9 * P.containerRadius
        ∧ 0.001 ≤ Real.sqrt ((initParticle P d).1.x * (initParticle P d).1.x
          + (initParticle P d).1.z * (initParticle P d).1.z)
        ∧ |(initParticle P d).1.y| ≤ P.containerHeight / 2
        ∧ (initParticle P d).1.vx = 0 ∧ (initParticle P d).1.vy = 0
        ∧ (initParticle P d).1.vz = 0
        ∧ (initParticle P d).1.temp = P.tempFluidInitial
        ∧ 0.8 ≤ (initParticle P d).2 ∧ (initParticle P d).2 ≤ 1.2 := by
  intro P d hR hH hu0 hu1 huy0 huy1 huv0 huv1
  have hx : (initParticle P d).1.x
      = max 0.001 (Real.sqrt d.u * P.containerRadius * 0.9)
        * Real.cos (d.utheta * 2 * Real.pi) := rfl
  have hz : (initParticle P d).1.z
      = max 0.001 (Real.sqrt d.u * P.containerRadius * 0.9)
        * Real.sin (d.utheta * 2 * Real.pi) := rfl
  have hy : (initParticle P d).1.y = (d.uy - 0.5) * P.containerHeight := rfl
  have hvar : (initParticle P d).2 = 0.8 + d.uv * 0.4 := rfl
  have hr001 : (0.001:ℝ) ≤ max 0.001 (Real.sqrt d.u * P.containerRadius * 0.9) :=
    le_max_left _ _
  have hrpos : (0:ℝ) < max 0.001 (Real.sqrt d.u * P.containerRadius * 0.9) := by
    linarith
  have hRpos : 0 < P.containerRadius := by nlinarith
  have hrle : max 0.001 (Real.sqrt d.u * P.containerRadius * 0.9)
      ≤ 0.9 * P.containerRadius := by
    apply max_le hR
    have hs1 : Real.sqrt d.u ≤ 1 := Real.sqrt_le_one.mpr hu1.le
    nlinarith [Real.sqrt_nonneg d.u]
  have htrig : Real.cos (d.utheta * 2 * Real.pi) ^ 2
      + Real.sin (d.utheta * 2 * Real.pi) ^ 2 = 1 := Real.cos_sq_add_sin_sq _
  have hsqrt : Real.sqrt ((initParticle P d).1.x * (initParticle P d).1.x
      + (initParticle P d).1.z * (initParticle P d).1.z)
      = max 0.001 (Real.sqrt d.u * P.containerRadius * 0.9) := by
    rw [hx, hz]
    have hkey : max 0.001 (Real.sqrt d.u * P.containerRadius * 0.9)
        * Real.cos (d.utheta * 2 * Real.pi)
        * (max 0.001 (Real.sqrt d.u * P.containerRadius * 0.9)
          * Real.cos (d.utheta * 2 * Real.pi))
        + max 0.001 (Real.sqrt d.u * P.containerRadius * 0.9)
        * Real.sin (d.utheta * 2 * Real.pi)
        * (max 0.001 (Real.sqrt d.u * P.containerRadius * 0.9)
          * Real.sin (d.utheta * 2 * Real.pi))
        = max 0.001 (Real.sqrt d.u * P.containerRadius * 0.9)
          * max 0.001 (Real.sqrt d.u * P.containerRadius * 0.9) := by
      linear_combination (max 0.001 (Real.sqrt d.u * P.containerRadius * 0.9)
        * max 0.001 (Real.sqrt d.u * P.containerRadius * 0.9)) * htrig
    rw [hkey, Real.sqrt_mul_self hrpos.le]
  refine ⟨?_, ?_, ?_, rfl, rfl, rfl, rfl, ?_, ?_⟩
  · rw [hsqrt]; exact hrle
  · rw [hsqrt]; exact hr001
  · rw [hy]
    rw [abs_le]
    constructor <;> nlinarith
  · rw [hvar]; nlinarith
  · rw [hvar]; nlinarith

/-- The default configuration of src/constants.ts, with a one-particle
ensemble. -/
def baseParams : SimParams :=
  { containerRadius := 0.1, containerHeight := 0.2, surfaceAreaHot := 0.0314
    containerOpacity := 0.2, tempSurface := 350, tempFluidInitial := 293
    boilingPoint := 373.15, density := 998, expansionCoefficient := 0.000207
    viscosityDynamic := 0.001002, thermalConductivityFluid := 0.6
    thermalDiffusivity := 0.000000143, heatCapacity := 4184, gravity := 9.81
    pressure := 1, particleCount := 1, particleSize := 0.015
    densityEffect := some 1 }

/-- Configuration violating C7 as stated: a valid configuration with a
very small container radius, where the 0.001 radius floor exceeds
0.9 * containerRadius. -/
def c7params : SimParams := { baseParams with containerRadius := 0.0005 }

/-- Draw outcomes for the C7 counterexample (all in the Math.random
range). -/
def c7draws : InitDraws := ⟨0, 0, 0.5, 0⟩

theorem C7_counterexample :
    0 < c7params.containerRadius ∧ 0 < c7params.containerHeight
      ∧ 1 ≤ c7params.particleCount
      ∧ Real.sqrt ((initParticle c7params c7draws).1.x
          * (initParticle c7params c7draws).1.x
          + (initParticle c7params c7draws).1.z
          * (initParticle c7params c7draws).1.z)
        > 0.9 * c7params.containerRadius := by
  have harg : (0:ℝ) * 2 * Real.pi = 0 := by ring
  have hx : (initParticle c7params c7draws).1.x = 0.001 := by
    show max 0.001 (Real.sqrt 0 * (0.0005:ℝ) * 0.9) * Real.cos (0 * 2 * Real.pi)
      = 0.001
    rw [harg, Real.sqrt_zero, Real.cos_zero]
    norm_num
  have hz : (initParticle c7params c7draws).1.z = 0 := by
    show max 0.001 (Real.sqrt 0 * (0.0005:ℝ) * 0.9) * Real.sin (0 * 2 * Real.pi) = 0
    rw [harg, Real.sin_zero, mul_zero]
  refine ⟨by norm_num [c7params, baseParams], by norm_num [c7params, baseParams], by norm_num [c7params, baseParams], ?_⟩
  rw [hx, hz]
  have h1 : (0.001:ℝ) * 0.001 + 0 * 0 = 0.001 ^ 2 := by norm_num
  rw [h1, Real.sqrt_sq (by norm_num)]
  norm_num [c7params, baseParams]

theorem C7_witness :
    (0.001:ℝ) ≤ 0.9 * (0.1:ℝ) ∧
      Real.sqrt ((initParticle { c7params with containerRadius := 0.1 } c7draws).1.x
          * (initParticle { c7params with containerRadius := 0.1 } c7draws).1.x
          + (initParticle { c7params with containerRadius := 0.1 } c7draws).1.z
          * (initParticle { c7params with containerRadius := 0.1 } c7draws).1.z)
        ≤ 0.9 * ({ c7params with containerRadius := 0.1 } : SimParams).containerRadius
      ∧ (initParticle { c7params with containerRadius := 0.1 } c7draws).1.temp
        = ({ c7params with containerRadius := 0.1 } : SimParams).tempFluidInitial := by
  have h := C7_init_bounds { c7params with containerRadius := 0.1 } c7draws
    (by norm_num [c7params, baseParams]) (by norm_num [c7params, baseParams])
    (by norm_num [c7draws]) (by norm_num [c7draws])
    (by norm_num [c7draws]) (by norm_num [c7draws])
    (by norm_num [c7draws]) (by norm_num [c7draws])
  exact ⟨by norm_num, h.1, h.2.2.2.2.2.2.1⟩

/-! ### C1: post-tick bounds -/

theorem clampV_mem (v : ℝ) : -10 ≤ clampV v ∧ clampV v ≤ 10 := by
  unfold clampV
  constructor
  · exact le_max_left _ _
  · exact max_le (by norm_num) (min_le_left _ _)

/-- Per-particle form of the post-tick bounds: every velocity component
of the committed particle lies in [-10, 10] (the clamp, possibly followed
by the magnitude-shrinking bounce or wall reflections), the committed
horizontal radius never exceeds the container radius (wall reprojection
lands exactly on the cylinder), and the committed height is within
0.001 of the half-height band (floor and ceiling snap to 0.001 inside). -/
theorem reproj_radius (radius X Z N : ℝ) (hR : 0 < radius)
    (hNN : N * N = X * X + Z * Z) (hNpos : 0 < N) :
    Real.sqrt (radius * (X / N) * (radius * (X / N))
      + radius * (Z / N) * (radius * (Z / N))) = radius := by
  have hne : N ≠ 0 := ne_of_gt hNpos
  have key : radius * (X / N) * (radius * (X / N))
      + radius * (Z / N) * (radius * (Z / N)) = radius * radius := by
    field_simp
    linear_combination (-(radius * radius)) * hNN
  rw [key, Real.sqrt_mul_self hR.le]

set_option maxHeartbeats 2000000 in
theorem particleStep_bounds (c : TickConsts) (p : Particle) (d : Draws) (sh : Bool)
    (hR : 0 < c.radius) (hH : 0 < c.halfH) :
    (-10 ≤ (particleStep c p d sh).1.vx ∧ (particleStep c p d sh).1.vx ≤ 10)
      ∧ (-10 ≤ (particleStep c p d sh).1.vy ∧ (particleStep c p d sh).1.vy ≤ 10)
      ∧ (-10 ≤ (particleStep c p d sh).1.vz ∧ (particleStep c p d sh).1.vz ≤ 10)
      ∧ Real.sqrt ((particleStep c p d sh).1.x * (particleStep c p d sh).1.x
          + (particleStep c p d sh).1.z * (particleStep c p d sh).1.z) ≤ c.radius
      ∧ |(particleStep c p d sh).1.y| ≤ c.halfH + 0.001 := by
  dsimp only [particleStep]
  set A := clampV ((p.vx + (circX c p + (d.jx - 0.5) * (thermalT c p / 500 * 0.05))
    * c.dt / c.inertiaFactor) * c.dragFactor) with hA
  set B := clampV ((p.vy + (fyPhase c p + (d.jy - 0.5) * (thermalT c p / 500 * 0.05))
    * c.dt / c.inertiaFactor) * c.dragFactor) with hB
  set C := clampV ((p.vz + (circZ c p + (d.jz - 0.5) * (thermalT c p / 500 * 0.05))
    * c.dt / c.inertiaFactor) * c.dragFactor) with hC
  have hAb : -10 ≤ A ∧ A ≤ 10 := by rw [hA]; exact clampV_mem _
  have hBb : -10 ≤ B ∧ B ≤ 10 := by rw [hB]; exact clampV_mem _
  have hCb : -10 ≤ C ∧ C ≤ 10 := by rw [hC]; exact clampV_mem _
  clear hA hB hC
  clear_value A B C
  set X := p.x + A * c.dt with hX
  set Y := p.y + B * c.dt with hY
  set Z := p.z + C * c.dt with hZ
  clear hX hY hZ
  clear_value X Y Z
  set N := Real.sqrt (X * X + Z * Z) with hN
  split_ifs with h1 h2 h3 h4 h5 h6 h7 <;>
    refine ⟨⟨?_, ?_⟩, ⟨?_, ?_⟩, ⟨?_, ?_⟩, ?_, ?_⟩
  all_goals try
    linarith [hAb.1, hAb.2, hBb.1, hBb.2, hCb.1, hCb.2]
  all_goals try (rw [abs_le]; constructor <;> linarith)
  all_goals
    have hNN : N * N = X * X + Z * Z := by
      rw [hN]
      exact Real.mul_self_sqrt (by nlinarith [mul_self_nonneg X, mul_self_nonneg Z])
  all_goals
    have hNpos : 0 < N := lt_trans hR (by assumption)
  all_goals exact le_of_eq (reproj_radius c.radius X Z N hR hNN hNpos)

/-- C1: After the per-tick update completes, every velocity component of
every particle lies in [-10, 10], every particle horizontal radius
satisfies sqrt(x^2 + z^2) ≤ containerRadius, and every particle vertical
coordinate satisfies |y| ≤ containerHeight / 2 + 0.001 (the floor and
ceiling snap offset), for any prior particle state, any draws, and any
configuration with positive container dimensions. -/
theorem C1_post_tick_bounds :
    ∀ (P : SimParams) (ra : ℝ) (sh : Bool) (δ : ℝ) (s : SimState)
      (ps : List (Particle × Draws)),
      0 < P.containerRadius → 0 < P.containerHeight →
      ∀ q ∈ (tick P ra sh δ s ps).2,
        (-10 ≤ q.1.vx ∧ q.1.vx ≤ 10)
          ∧ (-10 ≤ q.1.vy ∧ q.1.vy ≤ 10)
          ∧ (-10 ≤ q.1.vz ∧ q.1.vz ≤ 10)
          ∧ Real.sqrt (q.1.x * q.1.x + q.1.z * q.1.z) ≤ P.containerRadius
          ∧ |q.1.y| ≤ P.containerHeight / 2 + 0.001 := by
  intro P ra sh δ s ps hR hH q hq
  rw [tick, List.mem_map] at hq
  obtain ⟨a, _, rfl⟩ := hq
  have hcr : (mkTickConsts P ra δ s ps).radius = P.containerRadius := rfl
  have hch : (mkTickConsts P ra δ s ps).halfH = P.containerHeight / 2 := rfl
  have h := particleStep_bounds (mkTickConsts P ra δ s ps) a.1 a.2 sh
    (by rw [hcr]; exact hR) (by rw [hch]; linarith)
  rw [hcr, hch] at h
  exact h

/-- A one-particle ensemble used to witness the tick-level theorems. -/
def c1ens : List (Particle × Draws) :=
  [(⟨0, 0, 0, 0, 0, 0, 293, false⟩, ⟨0.5, 0.5, 0.5⟩)]

theorem C1_witness :
    0 < baseParams.containerRadius ∧ 0 < baseParams.containerHeight ∧
      ((-10 ≤ (particleStep (mkTickConsts baseParams 0 0.016 (initSimState baseParams) c1ens)
            (⟨0, 0, 0, 0, 0, 0, 293, false⟩ : Particle) (⟨0.5, 0.5, 0.5⟩ : Draws) true).1.vx
          ∧ (particleStep (mkTickConsts baseParams 0 0.016 (initSimState baseParams) c1ens)
            (⟨0, 0, 0, 0, 0, 0, 293, false⟩ : Particle) (⟨0.5, 0.5, 0.5⟩ : Draws) true).1.vx ≤ 10)
        ∧ (-10 ≤ (particleStep (mkTickConsts baseParams 0 0.016 (initSimState baseParams) c1ens)
            (⟨0, 0, 0, 0, 0, 0, 293, false⟩ : Particle) (⟨0.5, 0.5, 0.5⟩ : Draws) true).1.vy
          ∧ (particleStep (mkTickConsts baseParams 0 0.016 (initSimState baseParams) c1ens)
            (⟨0, 0, 0, 0, 0, 0, 293, false⟩ : Particle) (⟨0.5, 0.5, 0.5⟩ : Draws) true).1.vy ≤ 10)
        ∧ (-10 ≤ (particleStep (mkTickConsts baseParams 0 0.016 (initSimState baseParams) c1ens)
            (⟨0, 0, 0, 0, 0, 0, 293, false⟩ : Particle) (⟨0.5, 0.5, 0.5⟩ : Draws) true).1.vz
          ∧ (particleStep (mkTickConsts baseParams 0 0.016 (initSimState baseParams) c1ens)
            (⟨0, 0, 0, 0, 0, 0, 293, false⟩ : Particle) (⟨0.5, 0.5, 0.5⟩ : Draws) true).1.vz ≤ 10)
        ∧ Real.sqrt ((particleStep (mkTickConsts baseParams 0 0.016 (initSimState baseParams) c1ens)
              (⟨0, 0, 0, 0, 0, 0, 293, false⟩ : Particle) (⟨0.5, 0.5, 0.5⟩ : Draws) true).1.x
            * (particleStep (mkTickConsts baseParams 0 0.016 (initSimState baseParams) c1ens)
              (⟨0, 0, 0, 0, 0, 0, 293, false⟩ : Particle) (⟨0.5, 0.5, 0.5⟩ : Draws) true).1.x
            + (particleStep (mkTickConsts baseParams 0 0.016 (initSimState baseParams) c1ens)
              (⟨0, 0, 0, 0, 0, 0, 293, false⟩ : Particle) (⟨0.5, 0.5, 0.5⟩ : Draws) true).1.z
            * (particleStep (mkTickConsts baseParams 0 0.016 (initSimState baseParams) c1ens)
              (⟨0, 0, 0, 0, 0, 0, 293, false⟩ : Particle) (⟨0.5, 0.5, 0.5⟩ : Draws) true).1.z)
          ≤ baseParams.containerRadius
        ∧ |(particleStep (mkTickConsts baseParams 0 0.016 (initSimState baseParams) c1ens)
            (⟨0, 0, 0, 0, 0, 0, 293, false⟩ : Particle) (⟨0.5, 0.5, 0.5⟩ : Draws) true).1.y|
          ≤ baseParams.containerHeight / 2 + 0.001) := by
  have hmem : particleStep (mkTickConsts baseParams 0 0.016 (initSimState baseParams) c1ens)
      (⟨0, 0, 0, 0, 0, 0, 293, false⟩ : Particle) (⟨0.5, 0.5, 0.5⟩ : Draws) true
      ∈ (tick baseParams 0 true 0.016 (initSimState baseParams) c1ens).2 := by
    simp [tick, c1ens]
  exact ⟨by norm_num [baseParams], by norm_num [baseParams],
    C1_post_tick_bounds baseParams 0 true 0.016 (initSimState baseParams) c1ens
      (by norm_num [baseParams]) (by norm_num [baseParams]) _ hmem⟩

/-! ### C2: the zero-duration tick -/

theorem thermalT_dt_zero (c : TickConsts) (p : Particle) (hdt : c.dt = 0) :
    thermalT c p = p.temp := by
  unfold thermalT
  rw [hdt]
  split_ifs <;> simp [lerp]

/-- With a zero time step, for every particle (boundary-violating or
not): the committed temperature equals the 0.2-factor floor-bounce lerp
exactly when the floor condition held on the pre-tick position, and the
unchanged temperature otherwise; y is unchanged when neither floor nor
ceiling condition held pre-tick and snaps to -halfH + 0.001 when the
floor condition held; x and z are unchanged when the wall condition did
not hold pre-tick; and each velocity component whose boundary is not hit
is the pre-tick value times the drag factor (0.999 at dt = 0), then
clamped. -/
theorem particleStep_dt_zero (c : TickConsts) (p : Particle) (d : Draws) (sh : Bool)
    (hdt : c.dt = 0) (hdrag : c.dragFactor = 0.999) :
    ((particleStep c p d sh).1.temp
        = if p.y < -c.halfH then lerp p.temp c.sTempSurface 0.2 else p.temp)
      ∧ (¬(p.y < -c.halfH) → ¬(p.y > c.halfH) →
          (particleStep c p d sh).1.y = p.y
            ∧ (particleStep c p d sh).1.vy = clampV (p.vy * 0.999))
      ∧ (¬(Real.sqrt (p.x * p.x + p.z * p.z) > c.radius) →
          (particleStep c p d sh).1.x = p.x ∧ (particleStep c p d sh).1.z = p.z
            ∧ (particleStep c p d sh).1.vx = clampV (p.vx * 0.999)
            ∧ (particleStep c p d sh).1.vz = clampV (p.vz * 0.999))
      ∧ (p.y < -c.halfH → ¬(-c.halfH + 0.001 > c.halfH) →
          (particleStep c p d sh).1.y = -c.halfH + 0.001) := by
  have ht : thermalT c p = p.temp := thermalT_dt_zero c p hdt
  dsimp only [particleStep]
  rw [hdt, hdrag, ht]
  simp only [mul_zero, zero_div, add_zero, zero_mul]
  refine ⟨trivial, ?_, ?_, ?_⟩
  · intro hf hc
    constructor
    · simp only [if_neg hf, if_neg hc]
    · simp only [if_neg hf, if_neg hc]
  · intro hw
    refine ⟨?_, ?_, ?_, ?_⟩ <;> simp only [if_neg hw]
  · intro hf hc2
    simp only [if_pos hf, if_neg hc2]

/-- C2 (amended): With elapsedSeconds = 0 the temperature clause of the
claim holds for every particle: the committed temperature is the
0.2-factor floor-bounce lerp exactly when the floor condition already
held before the tick, and is unchanged otherwise.  But positions are
unchanged only for particles none of whose boundary conditions held
before the tick (a pre-existing floor violation is snapped to
-halfH + 0.001, as the counterexample shows), and velocities are NOT
left unchanged: each component is multiplied by the drag factor, which
is exactly 0.999 at dt = 0, and then clamped (and boundary-reflected
where a boundary condition held). -/
theorem C2_zero_delta_amended :
    ∀ (P : SimParams) (ra : ℝ) (sh : Bool) (s : SimState)
      (ps : List (Particle × Draws)) (p : Particle) (d : Draws),
      ((tick P ra sh 0 s ps).2
          = ps.map fun q => particleStep (mkTickConsts P ra 0 s ps) q.1 q.2 sh)
        ∧ (mkTickConsts P ra 0 s ps).dt = 0
        ∧ (mkTickConsts P ra 0 s ps).dragFactor = 0.999
        ∧ ((particleStep (mkTickConsts P ra 0 s ps) p d sh).1.temp
            = if p.y < -(P.containerHeight / 2) then
                lerp p.temp (smoothParams P s).tempSurface 0.2
              else p.temp)
        ∧ (¬(p.y < -(P.containerHeight / 2)) → ¬(p.y > P.containerHeight / 2) →
            (particleStep (mkTickConsts P ra 0 s ps) p d sh).1.y = p.y
              ∧ (particleStep (mkTickConsts P ra 0 s ps) p d sh).1.vy
                = clampV (p.vy * 0.999))
        ∧ (¬(Real.sqrt (p.x * p.x + p.z * p.z) > P.containerRadius) →
            (particleStep (mkTickConsts P ra 0 s ps) p d sh).1.x = p.x
              ∧ (particleStep (mkTickConsts P ra 0 s ps) p d sh).1.z = p.z
              ∧ (particleStep (mkTickConsts P ra 0 s ps) p d sh).1.vx
                = clampV (p.vx * 0.999)
              ∧ (particleStep (mkTickConsts P ra 0 s ps) p d sh).1.vz
                = clampV (p.vz * 0.999))
        ∧ (p.y < -(P.containerHeight / 2) →
            ¬(-(P.containerHeight / 2) + 0.001 > P.containerHeight / 2) →
            (particleStep (mkTickConsts P ra 0 s ps) p d sh).1.y
              = -(P.containerHeight / 2) + 0.001) := by
  intro P ra sh s ps p d
  have hdt : (mkTickConsts P ra 0 s ps).dt = 0 := by
    show min (0:ℝ) 0.05 = 0
    exact min_eq_left (by norm_num)
  have hdrag : (mkTickConsts P ra 0 s ps).dragFactor = 0.999 := by
    show max 0 (min 0.999 (1 - (smoothParams P s).viscosity * 100
      / max 0.01 (max 1 (smoothParams P s).density * 0.001 * densityFactor P)
      * min (0:ℝ) 0.05)) = 0.999
    rw [min_eq_left (by norm_num : (0:ℝ) ≤ 0.05), mul_zero, sub_zero]
    rw [min_eq_left (by norm_num : (0.999:ℝ) ≤ 1)]
    exact max_eq_right (by norm_num)
  have h := particleStep_dt_zero (mkTickConsts P ra 0 s ps) p d sh hdt hdrag
  exact ⟨rfl, hdt, hdrag, h.1, h.2.1, h.2.2.1, h.2.2.2⟩

/-- The first particle of the C2 counterexample: inside all boundaries
but carrying horizontal velocity 1 m/s, so the 0.999 drag factor shows
up in its exit velocity. -/
def c2particle : Particle := ⟨0, 0, 0, 1, 0, 0, 293, false⟩

/-- The second particle of the C2 counterexample: at rest but already
below the floor (y = -0.15 < -halfH = -0.1), so the zero-duration tick
snaps its position. -/
def c2pB : Particle := ⟨0, -0.15, 0, 0, 0, 0, 293, false⟩

/-- The counterexample configuration: the defaults with two particles. -/
def c2params2 : SimParams := { baseParams with particleCount := 2 }

/-- A one-particle ensemble around c2particle. -/
def c2ens : List (Particle × Draws) := [(c2particle, ⟨0.5, 0.5, 0.5⟩)]

/-- The two-particle counterexample ensemble. -/
def c2ens2 : List (Particle × Draws) :=
  [(c2particle, ⟨0.5, 0.5, 0.5⟩), (c2pB, ⟨0.5, 0.5, 0.5⟩)]

theorem C2_counterexample :
    c2particle.vx = 1 ∧ c2pB.y = -0.15 ∧
      ((tick c2params2 0 true 0 (initSimState c2params2) c2ens2).2.map
        fun q => (q.1.vx, q.1.y))
        = [((0.999:ℝ), (0:ℝ)), ((0:ℝ), (-0.099:ℝ))]
      ∧ (0.999:ℝ) ≠ 1 ∧ (-0.099:ℝ) ≠ -0.15 := by
  have hdt : (mkTickConsts c2params2 0 0 (initSimState c2params2) c2ens2).dt = 0 := by
    show min (0:ℝ) 0.05 = 0
    exact min_eq_left (by norm_num)
  have hdrag : (mkTickConsts c2params2 0 0 (initSimState c2params2) c2ens2).dragFactor
      = 0.999 := by
    show max 0 (min 0.999 (1 - (smoothParams c2params2 (initSimState c2params2)).viscosity
      * 100 / max 0.01 (max 1 (smoothParams c2params2 (initSimState c2params2)).density
      * 0.001 * densityFactor c2params2) * min (0:ℝ) 0.05)) = 0.999
    rw [min_eq_left (by norm_num : (0:ℝ) ≤ 0.05), mul_zero, sub_zero]
    rw [min_eq_left (by norm_num : (0.999:ℝ) ≤ 1)]
    exact max_eq_right (by norm_num)
  have hA := particleStep_dt_zero (mkTickConsts c2params2 0 0 (initSimState c2params2) c2ens2)
    c2particle ⟨0.5, 0.5, 0.5⟩ true hdt hdrag
  have hB := particleStep_dt_zero (mkTickConsts c2params2 0 0 (initSimState c2params2) c2ens2)
    c2pB ⟨0.5, 0.5, 0.5⟩ true hdt hdrag
  have hAfloor : ¬(c2particle.y
      < -(mkTickConsts c2params2 0 0 (initSimState c2params2) c2ens2).halfH) := by
    show ¬((0:ℝ) < -(0.2 / 2))
    norm_num
  have hAceil : ¬(c2particle.y
      > (mkTickConsts c2params2 0 0 (initSimState c2params2) c2ens2).halfH) := by
    show ¬((0:ℝ) > 0.2 / 2)
    norm_num
  have hAwall : ¬(Real.sqrt (c2particle.x * c2particle.x + c2particle.z * c2particle.z)
      > (mkTickConsts c2params2 0 0 (initSimState c2params2) c2ens2).radius) := by
    show ¬(Real.sqrt ((0:ℝ) * 0 + 0 * 0) > (0.1:ℝ))
    rw [show ((0:ℝ) * 0 + 0 * 0) = 0 by norm_num, Real.sqrt_zero]
    norm_num
  have hBfloor : c2pB.y
      < -(mkTickConsts c2params2 0 0 (initSimState c2params2) c2ens2).halfH := by
    show (-0.15:ℝ) < -(0.2 / 2)
    norm_num
  have hBnoceil : ¬(-(mkTickConsts c2params2 0 0 (initSimState c2params2) c2ens2).halfH
      + 0.001 > (mkTickConsts c2params2 0 0 (initSimState c2params2) c2ens2).halfH) := by
    show ¬(-(0.2 / 2 : ℝ) + 0.001 > 0.2 / 2)
    norm_num
  have hBwall : ¬(Real.sqrt (c2pB.x * c2pB.x + c2pB.z * c2pB.z)
      > (mkTickConsts c2params2 0 0 (initSimState c2params2) c2ens2).radius) := by
    show ¬(Real.sqrt ((0:ℝ) * 0 + 0 * 0) > (0.1:ℝ))
    rw [show ((0:ℝ) * 0 + 0 * 0) = 0 by norm_num, Real.sqrt_zero]
    norm_num
  refine ⟨rfl, rfl, ?_, by norm_num, by norm_num⟩
  have hlist : (tick c2params2 0 true 0 (initSimState c2params2) c2ens2).2
      = [particleStep (mkTickConsts c2params2 0 0 (initSimState c2params2) c2ens2)
          c2particle ⟨0.5, 0.5, 0.5⟩ true,
         particleStep (mkTickConsts c2params2 0 0 (initSimState c2params2) c2ens2)
          c2pB ⟨0.5, 0.5, 0.5⟩ true] := rfl
  rw [hlist]
  simp only [List.map_cons, List.map_nil]
  rw [(hA.2.2.1 hAwall).2.2.1, (hA.2.1 hAfloor hAceil).1,
      (hB.2.2.1 hBwall).2.2.1, hB.2.2.2 hBfloor hBnoceil]
  show [(clampV ((1:ℝ) * 0.999), (0:ℝ)),
      (clampV ((0:ℝ) * 0.999), -(0.2 / 2 : ℝ) + 0.001)]
    = [((0.999:ℝ), (0:ℝ)), ((0:ℝ), (-0.099:ℝ))]
  norm_num [clampV, min_def, max_def]

theorem C2_witness :
    ¬(c2particle.y < -(baseParams.containerHeight / 2))
      ∧ ¬(c2particle.y > baseParams.containerHeight / 2)
      ∧ ¬(Real.sqrt (c2particle.x * c2particle.x + c2particle.z * c2particle.z)
          > baseParams.containerRadius)
      ∧ ((particleStep (mkTickConsts baseParams 0 0 (initSimState baseParams) c2ens)
          c2particle ⟨0.5, 0.5, 0.5⟩ true).1.temp
            = if c2particle.y < -(baseParams.containerHeight / 2) then
                lerp c2particle.temp
                  (smoothParams baseParams (initSimState baseParams)).tempSurface 0.2
              else c2particle.temp)
      ∧ (particleStep (mkTickConsts baseParams 0 0 (initSimState baseParams) c2ens)
          c2particle ⟨0.5, 0.5, 0.5⟩ true).1.y = c2particle.y
      ∧ (particleStep (mkTickConsts baseParams 0 0 (initSimState baseParams) c2ens)
          c2particle ⟨0.5, 0.5, 0.5⟩ true).1.vx = clampV (c2particle.vx * 0.999) := by
  have hfloor : ¬(c2particle.y < -(baseParams.containerHeight / 2)) := by
    show ¬((0:ℝ) < -(0.2 / 2))
    norm_num
  have hceil : ¬(c2particle.y > baseParams.containerHeight / 2) := by
    show ¬((0:ℝ) > 0.2 / 2)
    norm_num
  have hwall : ¬(Real.sqrt (c2particle.x * c2particle.x + c2particle.z * c2particle.z)
      > baseParams.containerRadius) := by
    show ¬(Real.sqrt ((0:ℝ) * 0 + 0 * 0) > (0.1:ℝ))
    rw [show ((0:ℝ) * 0 + 0 * 0) = 0 by norm_num, Real.sqrt_zero]
    norm_num
  have h := C2_zero_delta_amended baseParams 0 true (initSimState baseParams) c2ens
    c2particle ⟨0.5, 0.5, 0.5⟩
  exact ⟨hfloor, hceil, hwall, h.2.2.2.1, (h.2.2.2.2.1 hfloor hceil).1,
    (h.2.2.2.2.2.1 hwall).2.2.1⟩

/-! ### C3: the example scenario -/

theorem clampV_eq_self {v : ℝ} (h1 : -10 ≤ v) (h2 : v ≤ 10) : clampV v = v := by
  unfold clampV
  rw [min_eq_right h2, max_eq_right h1]

/-- The example-scenario configuration: the defaults with three
particles. -/
def c3params : SimParams := { baseParams with particleCount := 3 }

/-- A scenario particle: at rest just above the floor at temperature
293 K. -/
def c3particle (x z : ℝ) : Particle := ⟨x, -0.099, z, 0, 0, 0, 293, false⟩

/-- The shared scalars the scenario tick computes (exact values). -/
def c3consts : TickConsts :=
  { dt := 0.016, halfH := 0.1, radius := 0.1, height := 0.2, inertiaFactor := 0.998
    dragFactor := 1 - 0.1002 / 0.998 * 0.016, thermalRate := 0.01144, avgT := 293
    sTempSurface := 350, sTempFluidInitial := 293, gravity := 9.81
    expansion := 0.000207, boilingPoint := 373.15, canConvect := false }

theorem c3consts_eq (x1 z1 x2 z2 x3 z3 : ℝ) (d1 d2 d3 : Draws) :
    mkTickConsts c3params 0 0.016 (initSimState c3params)
      [(c3particle x1 z1, d1), (c3particle x2 z2, d2), (c3particle x3 z3, d3)]
      = c3consts := by
  unfold mkTickConsts c3consts
  norm_num [smoothParams, initSimState, c3params, baseParams, lerp, frameAvg,
    densityFactor, canConvect, c3particle, min_def, max_def, List.map_cons,
    List.sum_cons]

set_option maxHeartbeats 2000000 in
theorem c3_particle_outcome (x z : ℝ) (d : Draws) (sh : Bool)
    (hjy0 : 0 ≤ d.jy) (hjy1 : d.jy < 1) :
    293 < (particleStep c3consts (c3particle x z) d sh).1.temp
      ∧ 0 < (particleStep c3consts (c3particle x z) d sh).1.vy := by
  have hcond1 : (c3particle x z).y + c3consts.halfH < 0.02 := by
    show (-0.099:ℝ) + 0.1 < 0.02
    norm_num
  have hconv : c3consts.canConvect = false := rfl
  have htB : 293.198 ≤ thermalT c3consts (c3particle x z)
      ∧ thermalT c3consts (c3particle x z) ≤ 293.19824 := by
    simp only [thermalT]
    rw [if_pos hcond1, hconv]
    simp only [Bool.false_eq_true, if_false]
    rw [show c3consts.thermalRate = 0.01144 from rfl,
        show c3consts.dt = 0.016 from rfl,
        show c3consts.sTempSurface = 350 from rfl,
        show c3consts.sTempFluidInitial = 293 from rfl,
        show c3consts.halfH = 0.1 from rfl,
        show (c3particle x z).y = -0.099 from rfl,
        show (c3particle x z).temp = 293 from rfl]
    split_ifs with hcool
    · constructor <;> norm_num [lerp, max_def]
    · constructor <;> norm_num [lerp, max_def]
  have hgas : ¬(thermalT c3consts (c3particle x z) > c3consts.boilingPoint) := by
    rw [show c3consts.boilingPoint = 373.15 from rfl]
    exact not_lt.mpr (by linarith [htB.2])
  have hfyB : 0.1005 ≤ fyPhase c3consts (c3particle x z)
      ∧ fyPhase c3consts (c3particle x z) ≤ 0.1007 := by
    simp only [fyPhase]
    rw [if_neg hgas]
    rw [show c3consts.gravity = 9.81 from rfl,
        show c3consts.expansion = 0.000207 from rfl,
        show c3consts.avgT = 293 from rfl]
    constructor <;> nlinarith [htB.1, htB.2]
  have hscale0 : (0:ℝ) ≤ thermalT c3consts (c3particle x z) / 500 * 0.05 := by
    nlinarith [htB.1]
  have hscale1 : thermalT c3consts (c3particle x z) / 500 * 0.05 ≤ 0.0294 := by
    nlinarith [htB.2]
  have hjlo : -(0.0147:ℝ)
      ≤ (d.jy - 0.5) * (thermalT c3consts (c3particle x z) / 500 * 0.05) := by
    nlinarith [mul_nonneg hjy0 hscale0]
  have hjhi : (d.jy - 0.5) * (thermalT c3consts (c3particle x z) / 500 * 0.05)
      ≤ 0.0147 := by
    nlinarith [mul_le_mul_of_nonneg_right hjy1.le hscale0]
  dsimp only [particleStep]
  rw [show (c3particle x z).vy = 0 from rfl,
      show (c3particle x z).y = -0.099 from rfl,
      show c3consts.dt = 0.016 from rfl,
      show c3consts.inertiaFactor = 0.998 from rfl,
      show c3consts.dragFactor = 1 - 0.1002 / 0.998 * 0.016 from rfl,
      show c3consts.halfH = 0.1 from rfl]
  set W := ((0:ℝ) + (fyPhase c3consts (c3particle x z)
      + (d.jy - 0.5) * (thermalT c3consts (c3particle x z) / 500 * 0.05))
      * 0.016 / 0.998) * (1 - 0.1002 / 0.998 * 0.016) with hW
  have hF1 := hfyB.1
  have hF2 := hfyB.2
  have hWb : 0.00136 ≤ W ∧ W ≤ 0.00186 := by
    rw [hW]
    constructor <;> (ring_nf at hF1 hF2 hjlo hjhi ⊢; nlinarith [hF1, hF2, hjlo, hjhi])
  rw [clampV_eq_self (by linarith [hWb.1]) (by linarith [hWb.2])]
  have hfl : ¬((-0.099:ℝ) + W * 0.016 < -(0.1:ℝ)) := by
    push_neg
    nlinarith [hWb.1]
  have hcl : ¬((-0.099:ℝ) + W * 0.016 > (0.1:ℝ)) := by
    push_neg
    nlinarith [hWb.2]
  simp only [if_neg hfl, if_neg hcl]
  exact ⟨by linarith [htB.1], by linarith [hWb.1]⟩

/-- C3: In the example scenario (three particles, default water
configuration, dt = 0.016, convection off), starting all three particles
at rest at y = -0.099 with temperature 293 K, after one tick every
particle temperature has strictly increased above 293 K and every
vertical velocity is strictly positive, for every outcome of the random
jitter draws and any horizontal placement. -/
theorem C3_example_scenario :
    ∀ (x1 z1 x2 z2 x3 z3 : ℝ) (d1 d2 d3 : Draws) (sh : Bool),
      0 ≤ d1.jy → d1.jy < 1 → 0 ≤ d2.jy → d2.jy < 1 → 0 ≤ d3.jy → d3.jy < 1 →
      ∀ q ∈ (tick c3params 0 sh 0.016 (initSimState c3params)
          [(c3particle x1 z1, d1), (c3particle x2 z2, d2), (c3particle x3 z3, d3)]).2,
        293 < q.1.temp ∧ 0 < q.1.vy := by
  intro x1 z1 x2 z2 x3 z3 d1 d2 d3 sh h10 h11 h20 h21 h30 h31 q hq
  rw [tick] at hq
  rw [c3consts_eq x1 z1 x2 z2 x3 z3 d1 d2 d3] at hq
  simp only [List.map_cons, List.map_nil, List.mem_cons, List.not_mem_nil, or_false]
    at hq
  rcases hq with rfl | rfl | rfl
  · exact c3_particle_outcome x1 z1 d1 sh h10 h11
  · exact c3_particle_outcome x2 z2 d2 sh h20 h21
  · exact c3_particle_outcome x3 z3 d3 sh h30 h31

theorem C3_witness :
    (0:ℝ) ≤ (0.5:ℝ) ∧ (0.5:ℝ) < 1 ∧
      (293 < (particleStep c3consts (c3particle 0 0) ⟨0.5, 0.5, 0.5⟩ true).1.temp
        ∧ 0 < (particleStep c3consts (c3particle 0 0) ⟨0.5, 0.5, 0.5⟩ true).1.vy) := by
  have hmem : particleStep c3consts (c3particle 0 0) ⟨0.5, 0.5, 0.5⟩ true
      ∈ (tick c3params 0 true 0.016 (initSimState c3params)
          [(c3particle 0 0, ⟨0.5, 0.5, 0.5⟩), (c3particle 0 0, ⟨0.5, 0.5, 0.5⟩),
            (c3particle 0 0, ⟨0.5, 0.5, 0.5⟩)]).2 := by
    rw [tick, c3consts_eq 0 0 0 0 0 0 ⟨0.5, 0.5, 0.5⟩ ⟨0.5, 0.5, 0.5⟩ ⟨0.5, 0.5, 0.5⟩]
    simp
  exact ⟨by norm_num, by norm_num,
    C3_example_scenario 0 0 0 0 0 0 ⟨0.5, 0.5, 0.5⟩ ⟨0.5, 0.5, 0.5⟩ ⟨0.5, 0.5, 0.5⟩ true
      (by norm_num) (by norm_num) (by norm_num) (by norm_num) (by norm_num) (by norm_num)
      _ hmem⟩

/-! ### C10: empty ensemble and the NaN running average -/

/-- The initial simState under the floating point semantics (lines
27-36). -/
def initSimStateF (P : SimParams) : SimStateF :=
  { tempSurface := JSVal.fin P.tempSurface
    tempFluidInitial := JSVal.fin P.tempFluidInitial
    gravity := JSVal.fin P.gravity
    viscosity := JSVal.fin P.viscosityDynamic
    expansion := JSVal.fin P.expansionCoefficient
    diffusivity := JSVal.fin P.thermalDiffusivity
    density := JSVal.fin P.density
    avgSystemTemp := JSVal.fin P.tempFluidInitial }

theorem jsLerp_nan_mid (a t : JSVal) : jsLerp a JSVal.nan t = JSVal.nan := by
  cases a <;> cases t <;> rfl

theorem frameAvgF_empty (P : SimParams) (h : P.particleCount = 0) :
    frameAvgF P [] = JSVal.nan := by
  unfold frameAvgF
  rw [h]
  show jsDiv (JSVal.fin 0) (JSVal.fin ((0:ℕ):ℝ)) = JSVal.nan
  rw [Nat.cast_zero]
  simp [jsDiv]

/-- C10: For a configuration with particleCount = 0, the per-tick
average-temperature computation divides the empty sum 0 by the count 0,
which is NaN under the floating point semantics; the persistent running
average temperature becomes NaN in a single tick from any prior value
and stays NaN under every further tick (the 0.1-rate lerp never recovers
it), while the particle list, being empty, is untouched and no error is
raised (the tick is a total function). -/
theorem C10_empty_ensemble_nan_average :
    ∀ (P : SimParams) (ra δ : ℝ) (s : SimStateF),
      P.particleCount = 0 →
      frameAvgF P [] = JSVal.nan
        ∧ (tickF P ra δ s []).1.avgSystemTemp = JSVal.nan
        ∧ (tickF P ra δ s []).2 = []
        ∧ (∀ n : ℕ, 1 ≤ n →
            ((fun st => (tickF P ra δ st []).1)^[n] s).avgSystemTemp = JSVal.nan) := by
  intro P ra δ s h
  have hfa : frameAvgF P [] = JSVal.nan := frameAvgF_empty P h
  have hstep : ∀ st : SimStateF, (tickF P ra δ st []).1.avgSystemTemp = JSVal.nan := by
    intro st
    show (newSimStateF P st []).avgSystemTemp = JSVal.nan
    unfold newSimStateF
    rw [hfa]
    exact jsLerp_nan_mid _ _
  refine ⟨hfa, hstep s, rfl, ?_⟩
  intro n hn
  obtain ⟨m, rfl⟩ := Nat.exists_eq_add_of_le hn
  rw [Nat.add_comm, Function.iterate_succ_apply']
  exact hstep _

/-- Zero-particle configuration used to witness C10. -/
def c10params : SimParams := { baseParams with particleCount := 0 }

theorem C10_witness :
    c10params.particleCount = 0 ∧
      (tickF c10params 0 0.016 (initSimStateF c10params) []).1.avgSystemTemp
        = JSVal.nan := by
  exact ⟨rfl,
    (C10_empty_ensemble_nan_average c10params 0 0.016 (initSimStateF c10params)
      rfl).2.1⟩

/-! ### C4: the non-finite safety reset -/

/-- C4 (amended): a particle whose position is non-finite when the
safety check of lines 257-269 runs (that is, after boundary resolution)
is reset: finite position within 0.8 * containerRadius of the axis and
within the half-height band, exactly zero velocity on all three axes,
and temperature equal to the smoothed ambient temperature.  Each
particle is treated independently, so no other particle is affected (the
tick maps the per-particle update over the ensemble), and the recovery
is silent — the update is a total function.  The claim as stated — for
every particle whose position becomes non-finite at any point during the
tick — is false: an infinite coordinate can be healed by the
floor/ceiling snap or the wall reprojection before the safety check runs,
leaving a nonzero velocity and an unreset temperature (see the
counterexample). -/
theorem C4_safety_reset_amended :
    ∀ (c : TickConstsF) (p : ParticleF) (d : DrawsF) (R HH A : ℝ),
      c.radius = JSVal.fin R → c.halfH = JSVal.fin HH → c.sTempFluidInitial = JSVal.fin A →
      0 ≤ R → 0 ≤ HH → 0 ≤ d.rR → d.rR < 1 → 0 ≤ d.rY → d.rY < 1 →
      ¬(jsIsFinite (kinematicsF c p d).x = true ∧ jsIsFinite (kinematicsF c p d).y = true
          ∧ jsIsFinite (kinematicsF c p d).z = true) →
      ((particleStepF c p d).x
          = JSVal.fin (d.rR * R * 0.8 * Real.cos (d.rTheta * 2 * Real.pi))
        ∧ (particleStepF c p d).y = JSVal.fin ((d.rY - 0.5) * HH)
        ∧ (particleStepF c p d).z
          = JSVal.fin (d.rR * R * 0.8 * Real.sin (d.rTheta * 2 * Real.pi))
        ∧ (d.rR * R * 0.8 * Real.cos (d.rTheta * 2 * Real.pi))
            * (d.rR * R * 0.8 * Real.cos (d.rTheta * 2 * Real.pi))
          + (d.rR * R * 0.8 * Real.sin (d.rTheta * 2 * Real.pi))
            * (d.rR * R * 0.8 * Real.sin (d.rTheta * 2 * Real.pi))
          ≤ (0.8 * R) * (0.8 * R)
        ∧ |(d.rY - 0.5) * HH| ≤ HH
        ∧ (particleStepF c p d).vx = JSVal.fin 0
        ∧ (particleStepF c p d).vy = JSVal.fin 0
        ∧ (particleStepF c p d).vz = JSVal.fin 0
        ∧ (particleStepF c p d).temp = JSVal.fin A) := by
  intro c p d R HH A hR hH hA hR0 hH0 hrR0 hrR1 hrY0 hrY1 hnf
  have htrig : Real.cos (d.rTheta * 2 * Real.pi) ^ 2
      + Real.sin (d.rTheta * 2 * Real.pi) ^ 2 = 1 := Real.cos_sq_add_sin_sq _
  have hout : particleStepF c p d =
      { x := JSVal.fin (d.rR * R * 0.8 * Real.cos (d.rTheta * 2 * Real.pi))
        y := JSVal.fin ((d.rY - 0.5) * HH)
        z := JSVal.fin (d.rR * R * 0.8 * Real.sin (d.rTheta * 2 * Real.pi))
        vx := JSVal.fin 0, vy := JSVal.fin 0, vz := JSVal.fin 0
        temp := JSVal.fin A, gas := (kinematicsF c p d).gas } := by
    unfold particleStepF safetyF
    rw [if_neg hnf, hR, hH, hA]
    simp [jsMul, jsCos, jsSin]
  refine ⟨by rw [hout], by rw [hout], by rw [hout], ?_, ?_,
    by rw [hout], by rw [hout], by rw [hout], by rw [hout]⟩
  · have key : (d.rR * R * 0.8 * Real.cos (d.rTheta * 2 * Real.pi))
        * (d.rR * R * 0.8 * Real.cos (d.rTheta * 2 * Real.pi))
        + (d.rR * R * 0.8 * Real.sin (d.rTheta * 2 * Real.pi))
        * (d.rR * R * 0.8 * Real.sin (d.rTheta * 2 * Real.pi))
        = (d.rR * R * 0.8) * (d.rR * R * 0.8) := by
      linear_combination (d.rR * R * 0.8) * (d.rR * R * 0.8) * htrig
    rw [key]
    nlinarith [mul_nonneg (mul_nonneg (sub_nonneg.mpr hrR1.le)
      (by linarith : (0:ℝ) ≤ 1 + d.rR)) (mul_nonneg hR0 hR0)]
  · rw [abs_le]
    constructor <;> nlinarith

/-- Consts for the C4 witness: zero thermal rate keeps the temperature
path trivial; the NaN-position particle reaches the safety check. -/
def c4wConsts : TickConstsF :=
  { dt := JSVal.fin 0.016, halfH := JSVal.fin 0.1, radius := JSVal.fin 0.1
    height := JSVal.fin 0.2, inertiaFactor := JSVal.fin 1, dragFactor := JSVal.fin 0.9
    thermalRate := JSVal.fin 0, avgT := JSVal.fin 293, sTempSurface := JSVal.fin 350
    sTempFluidInitial := JSVal.fin 293, gravity := JSVal.fin 9.81
    expansion := JSVal.fin 0.000207, boilingPoint := JSVal.fin 373.15
    canConvect := false }

/-- A particle with an injected NaN y coordinate. -/
def c4wParticle : ParticleF :=
  ⟨JSVal.fin 0, JSVal.nan, JSVal.fin 0, JSVal.fin 0, JSVal.fin 0, JSVal.fin 0,
    JSVal.fin 293, false⟩

/-- Draw outcomes for the C4 witness. -/
def c4wDraws : DrawsF := ⟨0.5, 0.5, 0.5, 0, 0, 0⟩

set_option maxHeartbeats 2000000 in
theorem C4_witness :
    ¬(jsIsFinite (kinematicsF c4wConsts c4wParticle c4wDraws).x = true
        ∧ jsIsFinite (kinematicsF c4wConsts c4wParticle c4wDraws).y = true
        ∧ jsIsFinite (kinematicsF c4wConsts c4wParticle c4wDraws).z = true)
      ∧ (0:ℝ) ≤ 0.1 ∧ (0:ℝ) ≤ c4wDraws.rR ∧ c4wDraws.rR < 1
      ∧ (particleStepF c4wConsts c4wParticle c4wDraws).vy = JSVal.fin 0
      ∧ (particleStepF c4wConsts c4wParticle c4wDraws).temp = JSVal.fin 293 := by
  have hkin : jsIsFinite (kinematicsF c4wConsts c4wParticle c4wDraws).y = false := by
    norm_num [kinematicsF, thermalTF, fyPhaseF, circXF, circZF, clampVF,
      jsAdd, jsSub, jsNeg, jsMul, jsDiv, jsSqrt, jsLtB, jsGtB, jsMax, jsMin, jsLerp,
      jsIsFinite, c4wConsts, c4wParticle, c4wDraws, Real.sqrt_zero, min_def, max_def]
  have hnf : ¬(jsIsFinite (kinematicsF c4wConsts c4wParticle c4wDraws).x = true
      ∧ jsIsFinite (kinematicsF c4wConsts c4wParticle c4wDraws).y = true
      ∧ jsIsFinite (kinematicsF c4wConsts c4wParticle c4wDraws).z = true) := by
    rw [hkin]
    simp
  have h := C4_safety_reset_amended c4wConsts c4wParticle c4wDraws 0.1 0.1 293
    rfl rfl rfl (by norm_num) (by norm_num) (by norm_num [c4wDraws])
    (by norm_num [c4wDraws]) (by norm_num [c4wDraws]) (by norm_num [c4wDraws]) hnf
  exact ⟨hnf, by norm_num, by norm_num [c4wDraws], by norm_num [c4wDraws],
    h.2.2.2.2.2.2.1, h.2.2.2.2.2.2.2.2⟩

/-- The C4 counterexample particle: +Infinity injected into y; away from
the wall; carrying a temperature above ambient. -/
def c4particle : ParticleF :=
  ⟨JSVal.fin 0.03, JSVal.pinf, JSVal.fin 0, JSVal.fin 0, JSVal.fin 0, JSVal.fin 0,
    JSVal.fin 300, false⟩

/-- Draw outcomes for the C4 counterexample: all jitter draws 0.5, so
the jitter forces vanish. -/
def c4draws : DrawsF := ⟨0.5, 0.5, 0.5, 0.5, 0.5, 0.5⟩

/-- The shared scalars of the counterexample tick (exact values). -/
def c4constsF : TickConstsF :=
  { dt := JSVal.fin 0.016, halfH := JSVal.fin 0.1, radius := JSVal.fin 0.1
    height := JSVal.fin 0.2, inertiaFactor := JSVal.fin 0.998
    dragFactor := JSVal.fin (1 - 0.1002 / 0.998 * 0.016)
    thermalRate := JSVal.fin 0.01144, avgT := JSVal.fin 293.7
    sTempSurface := JSVal.fin 350, sTempFluidInitial := JSVal.fin 293
    gravity := JSVal.fin 9.81, expansion := JSVal.fin 0.000207
    boilingPoint := JSVal.fin 373.15, canConvect := false }

theorem c4constsF_eq :
    mkTickConstsF baseParams 0 0.016 (initSimStateF baseParams)
      [(c4particle, c4draws)] = c4constsF := by
  unfold mkTickConstsF c4constsF
  norm_num [smoothParamsF, initSimStateF, frameAvgF, baseParams, densityFactor,
    canConvect, jsLerp, jsAdd, jsSub, jsNeg, jsMul, jsDiv, jsMax, jsMin,
    c4particle, min_def, max_def, List.foldl]

set_option maxHeartbeats 4000000 in
theorem C4_counterexample :
    jsIsFinite c4particle.y = false
      ∧ (mkTickConstsF baseParams 0 0.016 (initSimStateF baseParams)
          [(c4particle, c4draws)]).sTempFluidInitial = JSVal.fin 293
      ∧ ((tickF baseParams 0 0.016 (initSimStateF baseParams)
          [(c4particle, c4draws)]).2.map fun q => (q.vy, q.temp))
        ≠ [(JSVal.fin 0, JSVal.fin 293)] := by
  have hsq1 : Real.sqrt (0.03 * 0.03 + 0 * 0) = 0.03 := by
    rw [show (0.03 * 0.03 + 0 * 0 : ℝ) = 0.03 ^ 2 by norm_num,
      Real.sqrt_sq (by norm_num : (0:ℝ) ≤ 0.03)]
  have hsq2 : Real.sqrt 0.0009 = 0.03 := by
    rw [show (0.0009:ℝ) = 0.03 ^ 2 by norm_num,
      Real.sqrt_sq (by norm_num : (0:ℝ) ≤ 0.03)]
  have h9 : Real.sqrt 9 = 3 := by
    rw [show (9:ℝ) = 3 ^ 2 by norm_num, Real.sqrt_sq (by norm_num : (0:ℝ) ≤ 3)]
  have h10000 : Real.sqrt 10000 = 100 := by
    rw [show (10000:ℝ) = 100 ^ 2 by norm_num, Real.sqrt_sq (by norm_num : (0:ℝ) ≤ 100)]
  refine ⟨rfl, by rw [c4constsF_eq]; rfl, ?_⟩
  have hlist : (tickF baseParams 0 0.016 (initSimStateF baseParams)
      [(c4particle, c4draws)]).2
      = [particleStepF (mkTickConstsF baseParams 0 0.016 (initSimStateF baseParams)
          [(c4particle, c4draws)]) c4particle c4draws] := rfl
  rw [hlist, c4constsF_eq, List.map_singleton]
  norm_num [particleStepF, kinematicsF, safetyF, thermalTF, fyPhaseF, circXF, circZF,
    clampVF, jsAdd, jsSub, jsNeg, jsMul, jsDiv, jsSqrt, jsLtB, jsGtB, jsMax, jsMin,
    jsLerp, jsIsFinite, c4constsF, c4particle, c4draws, hsq1, hsq2, h9, h10000,
    min_def, max_def]

end Convec
